import Mathlib

/-!
Verification development for the audio-sync reconciliation engine
(`audio_backend.py`, `config.py`).

The pure text-processing helpers (`run_cmd`, `_split_module_blocks`,
`list_movable_sink_inputs`, `_detect_all_devices`) are embedded at the
string level, working on `List Char`.  The stateful reconciliation engine
(`AudioBackend`) is embedded as explicit state passing over a `World`
record that holds the audio-server state which the `pactl` listings would
render; the gateway/parser text round-trip is collapsed, so observation
functions read `World` directly and mutating `pactl` calls are traced as
`Cmd` values and interpreted by `applyCmd`.
-/

set_option maxRecDepth 8000
set_option maxHeartbeats 1000000

namespace AudioSync

/-- ASCII whitespace, mirroring Python's `str.strip` / regex `\s`
(space, tab, newline, carriage return, vertical tab, form feed). -/
def isWs (c : Char) : Bool :=
  c = ' ' || c = '\t' || c = '\n' || c = '\r' || c = '\x0b' || c = '\x0c'

/-- `chStartsWith pat s` tests whether `s` starts with `pat`
(Python `s.startswith(pat)`). -/
def chStartsWith : List Char → List Char → Bool
  | [], _ => true
  | _ :: _, [] => false
  | p :: ps, c :: cs => p = c && chStartsWith ps cs

/-- `occursIn pat s` tests whether `pat` occurs as a contiguous substring
of `s` (Python `pat in s`). -/
def occursIn (pat : List Char) : List Char → Bool
  | [] => chStartsWith pat []
  | c :: rest => chStartsWith pat (c :: rest) || occursIn pat rest

/-- Strip leading and trailing whitespace (Python `str.strip()`). -/
def chTrim (s : List Char) : List Char :=
  ((s.dropWhile isWs).reverse.dropWhile isWs).reverse

/-- The double-quote character. -/
def quoteCh : Char := Char.ofNat 34

/-- Strip leading and trailing double quotes (Python `str.strip('"')`). -/
def chStripQuotes (s : List Char) : List Char :=
  ((s.dropWhile (fun c => c = quoteCh)).reverse.dropWhile (fun c => c = quoteCh)).reverse

/-- Everything after the first occurrence of `sep`
(Python `s.split(sep, 1)[1]`, for inputs where `sep` occurs). -/
def chAfterFirst (sep : Char) : List Char → List Char
  | [] => []
  | c :: rest => if c = sep then rest else chAfterFirst sep rest

/-- Nonempty and all ASCII digits (Python `str.isdigit` for ASCII input). -/
def chIsDigits (s : List Char) : Bool :=
  !s.isEmpty && s.all Char.isDigit

/-- Digit string to `Nat` (Python `int(...)` on a digit string). -/
def chToNat (ds : List Char) : Nat :=
  ds.foldl (fun n c => n * 10 + (c.toNat - 48)) 0

/-- Fuelled worker for `chSplitOn`. -/
def chSplitOnGo (pat : List Char) : Nat → List Char → List Char → List (List Char)
  | 0, acc, rest => [acc.reverse ++ rest]
  | Nat.succ fuel, acc, rest =>
    if !pat.isEmpty && chStartsWith pat rest then
      acc.reverse :: chSplitOnGo pat fuel [] (rest.drop pat.length)
    else
      match rest with
      | [] => [acc.reverse]
      | c :: rs => chSplitOnGo pat fuel (c :: acc) rs

/-- Split on every occurrence of a nonempty separator, left to right,
non-overlapping (Python `s.split(pat)`). -/
def chSplitOn (pat s : List Char) : List (List Char) :=
  chSplitOnGo pat (s.length + 1) [] s

/-- Python `str.splitlines()` for newline-separated text: like splitting on
newline, but the empty piece after a trailing newline is dropped and the
empty string yields no lines. -/
def chSplitLines (s : List Char) : List (List Char) :=
  if s.isEmpty then []
  else
    let ps := chSplitOn ['\n'] s
    if s.getLast? = some '\n' then ps.dropLast else ps

/-- Scan `s` left to right for occurrences of the literal `lit`; at each
occurrence try `k` on the rest of the string after the literal, returning
the first success.  Models `re.search` for patterns of the form
`literal✶group`, where the group parser `k` never looks behind. -/
def searchAfter (lit : List Char) (k : List Char → Option α) : List Char → Option α
  | [] => if chStartsWith lit [] then k [] else none
  | c :: rest =>
    if chStartsWith lit (c :: rest) then
      match k ((c :: rest).drop lit.length) with
      | some r => some r
      | none => searchAfter lit k rest
    else searchAfter lit k rest

/-- Group parser for `(\d+)`: a nonempty maximal digit run, as a number. -/
def parseNatGroup (s : List Char) : Option Nat :=
  let ds := s.takeWhile Char.isDigit
  if ds.isEmpty then none else some (chToNat ds)

/-- Group parser for `\s*(\S+)`: skip whitespace, take a nonempty maximal
non-whitespace run. -/
def parseTokenGroup (s : List Char) : Option (List Char) :=
  let tok := (s.dropWhile isWs).takeWhile (fun c => !isWs c)
  if tok.isEmpty then none else some tok

/-- Group parser for `\s*(.+)`: greedily skip whitespace then take the rest
of the line.  When only whitespace remains, the regex engine backtracks and
the group becomes the (nonempty) tail of the whitespace run after its last
newline. -/
def parseLineGroup (s : List Char) : Option (List Char) :=
  let rest := s.dropWhile isWs
  if !rest.isEmpty then some (rest.takeWhile (fun c => c ≠ '\n'))
  else
    let tail := ((s.takeWhile isWs).reverse.takeWhile (fun c => c ≠ '\n')).reverse
    if tail.isEmpty then none else some tail

/-- `re.search(r'Module #(\d+)', block)`. -/
def searchModuleNum (block : List Char) : Option Nat :=
  searchAfter ("Module #".data) parseNatGroup block

-- ---------------------------------------------------------------------------
-- Process/Query Gateway (run_cmd, src/audio_backend.py:39)
-- ---------------------------------------------------------------------------

/-- Outcome of one external process execution: it either completed with an
exit code and captured stdout, exceeded the timeout, or the executable was
missing. -/
inductive ProcOutcome where
  | completed (exitCode : Int) (stdout : String)
  | timedOut
  | missingExe
deriving DecidableEq

/-- Result of `run_cmd`: Python returns `str` when `capture=True` and
`bool` otherwise. -/
inductive CmdResult where
  | text (s : String)
  | flag (b : Bool)
deriving DecidableEq

/-- `run_cmd` (src/audio_backend.py:39).  `exec` is the external process
behaviour as a function of the timeout passed to `subprocess.run`; the
source always passes the fixed timeout 5.  The capture branch has no
`check=True`, so a completed process returns its stdout regardless of exit
code; `TimeoutExpired` and `FileNotFoundError` are caught and yield `""`.
The non-capture branch has `check=True`, so a non-zero exit raises
`CalledProcessError`, which is caught and yields `false`. -/
def runCmd (exec : Nat → ProcOutcome) (capture : Bool) : CmdResult :=
  if capture then
    match exec 5 with
    | .completed _ out => .text out
    | .timedOut => .text ("")
    | .missingExe => .text ("")
  else
    match exec 5 with
    | .completed code _ => .flag (decide (code = 0))
    | .timedOut => .flag false
    | .missingExe => .flag false

-- ---------------------------------------------------------------------------
-- Configuration (src/config.py)
-- ---------------------------------------------------------------------------

/-- `DEFAULT_ANALOG_DELAY` (src/config.py:16). -/
def DEFAULT_ANALOG_DELAY : Int := 121

/-- `DEFAULT_BT_DELAY` (src/config.py:18). -/
def DEFAULT_BT_DELAY : Int := 1

/-- The configuration store (class `Config`, src/config.py:53), restricted
to the keys the audio backend reads.  The per-device maps are association
lists where the most recent write is consed at the front, so lookups see
the latest value, matching Python dict assignment. -/
structure Config where
  default_analog_delay_ms : Int
  default_bt_delay_ms : Int
  device_delays : List (String × Int)
  device_offsets : List (String × Int)
  virtual_sink : String
deriving DecidableEq

/-- First-match association-list lookup (Python dict read). -/
def lookupKey : List (String × Int) → String → Option Int
  | [], _ => none
  | (k, v) :: rest, key => if k = key then some v else lookupKey rest key

/-- The `DEFAULTS` dict (src/config.py:21), restricted to the modelled keys:
a freshly loaded configuration with no saved file. -/
def defaultConfig : Config :=
  ⟨DEFAULT_ANALOG_DELAY, DEFAULT_BT_DELAY, [], [], "audio_master"⟩

/-- The Bluetooth-stack marker test used by `Config.get_device_delay`
(src/config.py:112) and `AudioBackend._detect_all_devices`
(src/audio_backend.py:643): the sink name contains `bluez_sink` or
`bluez_output`. -/
def isBluetoothName (sink_name : String) : Bool :=
  occursIn ("bluez_sink".data) sink_name.data || occursIn ("bluez_output".data) sink_name.data

/-- `Config.get_device_delay` (src/config.py:104). -/
def get_device_delay (c : Config) (sink_name : String) : Int :=
  match lookupKey c.device_delays sink_name with
  | some d => d
  | none =>
    if isBluetoothName sink_name then c.default_bt_delay_ms
    else c.default_analog_delay_ms

/-- `Config.set_device_delay` (src/config.py:116): clamps into [1, 500]. -/
def set_device_delay (c : Config) (sink_name : String) (delay_ms : Int) : Config :=
  ⟨c.default_analog_delay_ms, c.default_bt_delay_ms,
    (sink_name, max 1 (min 500 delay_ms)) :: c.device_delays,
    c.device_offsets, c.virtual_sink⟩

/-- `Config.set_default_analog_delay` (src/config.py:123). -/
def set_default_analog_delay (c : Config) (delay_ms : Int) : Config :=
  ⟨max 1 (min 500 delay_ms), c.default_bt_delay_ms,
    c.device_delays, c.device_offsets, c.virtual_sink⟩

/-- `Config.set_default_bt_delay` (src/config.py:128). -/
def set_default_bt_delay (c : Config) (delay_ms : Int) : Config :=
  ⟨c.default_analog_delay_ms, max 1 (min 500 delay_ms),
    c.device_delays, c.device_offsets, c.virtual_sink⟩

/-- `Config.get_device_offset` (src/config.py:135): default 0. -/
def get_device_offset (c : Config) (sink_name : String) : Int :=
  match lookupKey c.device_offsets sink_name with
  | some v => v
  | none => 0

/-- `Config.set_device_offset` (src/config.py:140): clamps into [-150, 150]. -/
def set_device_offset (c : Config) (sink_name : String) (offset_ms : Int) : Config :=
  ⟨c.default_analog_delay_ms, c.default_bt_delay_ms, c.device_delays,
    (sink_name, max (-150) (min 150 offset_ms)) :: c.device_offsets,
    c.virtual_sink⟩

-- ---------------------------------------------------------------------------
-- Topology parser: module blocks and the movable-stream enumerator
-- (src/audio_backend.py:62-136)
-- ---------------------------------------------------------------------------

/-- `_split_module_blocks` (src/audio_backend.py:62): group the lines of a
`pactl list modules` dump into blocks, each block starting at a line that
starts with `Module #`; any lines before the first such header form a
headerless leading block. -/
def splitModuleBlocks (modules_output : List Char) : List (List Char) :=
  let step := fun (st : List (List (List Char)) × List (List Char)) (line : List Char) =>
    if chStartsWith ("Module #".data) line then
      if !st.2.isEmpty then (st.1 ++ [st.2], [line]) else (st.1, [line])
    else (st.1, st.2 ++ [line])
  let st := (chSplitLines modules_output).foldl step ([], [])
  let blocks := if !st.2.isEmpty then st.1 ++ [st.2] else st.1
  blocks.map (fun lines => String.intercalate ("\n") (lines.map String.mk) |>.data)

/-- `_find_loopback_module_ids` (src/audio_backend.py:78): ids of all
`module-loopback` modules.  The gateway call is collapsed: the argument is
the text `pactl list modules` produced (empty on command failure). -/
def findLoopbackModuleIds (modules_output : List Char) : List Nat :=
  if modules_output.isEmpty then []
  else
    (splitModuleBlocks modules_output).filterMap (fun block =>
      match searchModuleNum block with
      | some i =>
        if occursIn ("Name: module-loopback".data) block then some i else none
      | none => none)

/-- The combine-sink id collection inlined in `list_movable_sink_inputs`
(src/audio_backend.py:98-103). -/
def findCombineModuleIds (modules_output : List Char) : List Nat :=
  (splitModuleBlocks modules_output).filterMap (fun block =>
    match searchModuleNum block with
    | some i =>
      if occursIn ("Name: module-combine-sink".data) block then some i else none
    | none => none)

/-- Fields scanned out of one `Sink Input #` block
(src/audio_backend.py:111-124): the Python loop overwrites on every match,
so the last occurrence of each key wins. -/
structure StreamFields where
  owner_module : Option (List Char)
  driver : Option (List Char)
  app_name : Option (List Char)
  media_name : Option (List Char)
deriving DecidableEq

/-- One step of the field scan over a (stripped) line
(src/audio_backend.py:115-124). -/
def scanStreamLine (acc : StreamFields) (line : List Char) : StreamFields :=
  let stripped := chTrim line
  if chStartsWith ("Owner Module:".data) stripped then
    ⟨some (chTrim (chAfterFirst ':' stripped)), acc.driver, acc.app_name, acc.media_name⟩
  else if chStartsWith ("Driver:".data) stripped then
    ⟨acc.owner_module, some (chTrim (chAfterFirst ':' stripped)), acc.app_name, acc.media_name⟩
  else if chStartsWith ("application.name =".data) stripped then
    ⟨acc.owner_module, acc.driver,
      some (chStripQuotes (chTrim (chAfterFirst '=' stripped))), acc.media_name⟩
  else if chStartsWith ("media.name =".data) stripped then
    ⟨acc.owner_module, acc.driver, acc.app_name,
      some (chStripQuotes (chTrim (chAfterFirst '=' stripped)))⟩
  else acc

/-- Parse one `Sink Input #` block into its id line and scanned fields
(src/audio_backend.py:107-124); `none` when the stripped block has no
lines. -/
def parseStreamBlock (block : List Char) : Option (List Char × StreamFields) :=
  match chSplitLines (chTrim block) with
  | [] => none
  | l0 :: _ =>
    some (chTrim l0, (chSplitLines (chTrim block)).foldl scanStreamLine ⟨none, none, none, none⟩)

/-- The exclusion ladder of `list_movable_sink_inputs`
(src/audio_backend.py:125-135), as the per-block contribution: `some id`
when the stream is movable, `none` when it is skipped. -/
def movableId (loopback_modules combine_modules : List Nat) (block : List Char) :
    Option String :=
  match parseStreamBlock block with
  | none => none
  | some (input_id, f) =>
    let ownerSkip :=
      match f.owner_module with
      | some o =>
        chIsDigits o &&
          (decide (chToNat o ∈ loopback_modules) || decide (chToNat o ∈ combine_modules))
      | none => false
    let driverSkip :=
      match f.driver with
      | some d =>
        occursIn ("module-loopback".data) d || occursIn ("module-combine-sink".data) d
      | none => false
    let appSkip :=
      f.app_name = some ("module-loopback".data) ||
      f.app_name = some ("module-ladspa-sink".data) ||
      f.app_name = some ("module-combine-sink".data)
    let mediaSkip :=
      match f.media_name with
      | some m =>
        !m.isEmpty && (occursIn ("Loopback".data) m || occursIn ("Simultaneous".data) m)
      | none => false
    if ownerSkip || driverSkip || appSkip || mediaSkip then none
    else some (String.mk input_id)

/-- `list_movable_sink_inputs` (src/audio_backend.py:91): sink-input ids of
the `pactl list sink-inputs` dump, excluding the engine's own
infrastructure streams.  Both gateway calls are collapsed to text
arguments (the modules listing is read with `or ''`, so failure is the
empty string). -/
def list_movable_sink_inputs (sink_inputs_output modules_output : String) : List String :=
  if sink_inputs_output.data.isEmpty then []
  else
    let loopback_modules := findLoopbackModuleIds modules_output.data
    let combine_modules := findCombineModuleIds modules_output.data
    ((chSplitOn ("Sink Input #".data) sink_inputs_output.data).drop 1).filterMap
      (movableId loopback_modules combine_modules)

/-- The claim's exclusion predicate on a parsed stream block: the owning
module id belongs to the known loopback/combine ids, or the application
name is an infrastructure module name, or the media name contains an
infrastructure marker substring. -/
def excludedStream (loopback_modules combine_modules : List Nat) (f : StreamFields) : Bool :=
  (match f.owner_module with
   | some o =>
     chIsDigits o &&
       (decide (chToNat o ∈ loopback_modules) || decide (chToNat o ∈ combine_modules))
   | none => false) ||
  (f.app_name = some ("module-loopback".data) ||
   f.app_name = some ("module-ladspa-sink".data) ||
   f.app_name = some ("module-combine-sink".data)) ||
  (match f.media_name with
   | some m =>
     !m.isEmpty && (occursIn ("Loopback".data) m || occursIn ("Simultaneous".data) m)
   | none => false)

-- ---------------------------------------------------------------------------
-- Device detection and classification (src/audio_backend.py:617-658)
-- ---------------------------------------------------------------------------

/-- `OutputDevice` (src/audio_backend.py:143). -/
structure OutputDevice where
  sink_name : String
  description : String
  device_type : String
  is_synced : Bool
  is_available : Bool
deriving DecidableEq

/-- `OutputDevice.display_name` (src/audio_backend.py:152). -/
def displayName (d : OutputDevice) : String :=
  if d.description = "" || d.description = d.sink_name then
    if d.device_type = "bluetooth" then
      match chSplitOn ['.'] d.sink_name.data with
      | _ :: p1 :: _ => String.mk (p1.map (fun c => if c = '_' then ':' else c))
      | _ => d.sink_name
    else d.sink_name
  else d.description

/-- The classification ladder in the body of `_detect_all_devices`
(src/audio_backend.py:636-649), factored out of the loop: `none` when the
sink is skipped (infrastructure), otherwise the device type.  The branch
order is the source's: own-virtual-sink / eq / ladspa exclusion first,
then the Bluetooth markers, then the null / tunnel exclusion, else
analog. -/
def classify_sink (virtual_sink : String) (sink_name : List Char) : Option String :=
  if sink_name = virtual_sink.data then none
  else if sink_name = ("eq_sink".data) || occursIn ("ladspa".data) (sink_name.map Char.toLower) then
    none
  else if occursIn ("bluez_sink".data) sink_name || occursIn ("bluez_output".data) sink_name then
    some ("bluetooth")
  else if occursIn ("null".data) sink_name || occursIn ("auto_null".data) sink_name ||
      chStartsWith ("tunnel.".data) sink_name then
    none
  else some ("analog")

/-- `_detect_all_devices` (src/audio_backend.py:617), at the string level:
parse the full `pactl list sinks` dump into `Sink #` blocks, extract
`Name:`/`Description:` by regex, classify each sink, and take availability
from the names column of the short listing. -/
def detect_all_devices (virtual_sink : String) (sinks_output sinks_short : String) :
    List OutputDevice :=
  let available :=
    (chSplitLines (chTrim sinks_short.data)).filterMap (fun line =>
      match chSplitOn ['\t'] line with
      | _ :: p1 :: _ => some (chTrim p1)
      | _ => none)
  ((chSplitOn ("Sink #".data) sinks_output.data).drop 1).filterMap (fun block =>
    match searchAfter ("Name:".data) parseTokenGroup block with
    | none => none
    | some sink_name =>
      let description :=
        match searchAfter ("Description:".data) parseLineGroup block with
        | some d => String.mk (chTrim d)
        | none => String.mk sink_name
      match classify_sink virtual_sink sink_name with
      | none => none
      | some device_type =>
        some ⟨String.mk sink_name, description, device_type, false,
          decide (sink_name ∈ available)⟩)

-- ---------------------------------------------------------------------------
-- The external audio server, as a structured world
-- ---------------------------------------------------------------------------

/-- One sink of the audio server, carrying what the engine reads from the
`pactl list sinks` dumps: its name and description, mute and volume
state, and (for `_set_port_latency_offset`) its active port and owning
card index.  The source extracts the card index either from a `Card:`
field or from a `device.id` property; the two extraction paths are
collapsed into the single `cardIdx` field. -/
structure SinkRec where
  name : String
  description : String
  muted : Bool
  volume : Nat
  activePort : Option String
  cardIdx : Option Nat
deriving DecidableEq

/-- One loaded module of the audio server, restricted to the kinds the
engine inspects, with its argument string parsed into fields. -/
inductive ModuleRec where
  | combineSink (mid : Nat) (sink_name : String) (slaves : List String)
  | nullSink (mid : Nat) (sink_name : String)
  | loopback (mid : Nat) (source : String) (sink : String) (latency_msec : Int)
  | otherMod (mid : Nat) (name : String)
deriving DecidableEq

/-- The numeric id of a module. -/
def midOf : ModuleRec → Nat
  | .combineSink i _ _ => i
  | .nullSink i _ => i
  | .loopback i _ _ _ => i
  | .otherMod i _ => i

/-- The sink a combine/null module creates (from its `sink_name=` argument);
`none` for modules that create no sink of their own. -/
def moduleSinkName : ModuleRec → Option String
  | .combineSink _ n _ => some n
  | .nullSink _ n => some n
  | _ => none

/-- Whether a module is one of the engine's own combine/null modules: a
combine-sink or null-sink whose `sink_name=` argument is the configured
virtual sink (the "ghost" test of `_cleanup_ghost_modules` and
`_cleanup_locked`). -/
def isOursB (v : String) (m : ModuleRec) : Bool :=
  moduleSinkName m = some v

/-- Ids of all combine/null modules bearing the virtual sink's name. -/
def ghostIdsOf (v : String) (l : List ModuleRec) : List Nat :=
  l.filterMap (fun m => if isOursB v m then some (midOf m) else none)

/-- One sink input (playback stream) of the audio server, carrying the
fields `list_movable_sink_inputs` and `_fix_loopback_routing_locked`
scan out of the `pactl list sink-inputs` dump.  The owning module is held
as a parsed number (the textual `isdigit` guard of the source is subsumed
by the structured field). -/
structure StreamRec where
  iid : String
  ownerModule : Option Nat
  driver : Option String
  appName : Option String
  mediaName : Option String
  sink : String
deriving DecidableEq

/-- The audio-server state the engine's `pactl` listings would render.
`serverInfo` is the `pactl info` text used only for the `PipeWire`
substring probe; `cards` is the `pactl list cards short` index-to-name
table; `nextId` is the id the server will give the next loaded module
(fresh: strictly above every loaded module id in well-formed worlds). -/
structure World where
  sinks : List SinkRec
  modules : List ModuleRec
  defaultSink : Option String
  streams : List StreamRec
  cards : List (Nat × String)
  serverInfo : String
  nextId : Nat
deriving DecidableEq

/-- The mutating `pactl` commands the engine issues (queries are reads of
`World` and are not traced).  These are exactly the command classes the
spec counts as mutating, plus `set-port-latency-offset` used by the
PipeWire offset path. -/
inductive Cmd where
  | loadCombineSink (sink_name : String) (slaves : List String)
  | loadNullSink (sink_name : String)
  | loadLoopback (source : String) (sink : String) (latency_msec : Int)
  | unloadModule (mid : Nat)
  | setDefaultSink (name : String)
  | setSinkMute (name : String) (mute : Bool)
  | setSinkVolume (name : String) (volumePercent : Nat)
  | moveSinkInput (iid : String) (target : String)
  | setPortLatencyOffset (card : String) (port : String) (offset_usec : Int)
deriving DecidableEq

/-- Loads and unloads: the structural graph mutations
(`pactl load-module` / `pactl unload-module`). -/
def isLoadOrUnload : Cmd → Bool
  | .loadCombineSink _ _ => true
  | .loadNullSink _ => true
  | .loadLoopback _ _ _ => true
  | .unloadModule _ => true
  | _ => false

/-- Effect of one mutating command on the server.  Loading a combine or
null sink creates the identically named sink (description
`Audio_Master`, per the `sink_properties` argument); the combine sink
also creates one internal stream per slave, owned by the new module.
Loading a loopback creates its internal stream.  Unloading removes the
module, its streams, and (for combine/null modules) its sink.  Latency
offsets are not tracked: nothing in the engine reads them back. -/
def applyCmd (c : Cmd) (w : World) : World :=
  match c with
  | .loadCombineSink n slaves =>
    ⟨w.sinks ++ [⟨n, "Audio_Master", false, 100, none, none⟩],
      w.modules ++ [.combineSink w.nextId n slaves],
      w.defaultSink,
      w.streams ++ slaves.map (fun sl =>
        ⟨Nat.repr w.nextId ++ "." ++ sl, some w.nextId, some ("module-combine-sink.c"),
          some ("module-combine-sink"), some ("Simultaneous output to " ++ sl), sl⟩),
      w.cards, w.serverInfo, w.nextId + 1⟩
  | .loadNullSink n =>
    ⟨w.sinks ++ [⟨n, "Audio_Master", false, 100, none, none⟩],
      w.modules ++ [.nullSink w.nextId n],
      w.defaultSink, w.streams, w.cards, w.serverInfo, w.nextId + 1⟩
  | .loadLoopback src snk lat =>
    ⟨w.sinks,
      w.modules ++ [.loopback w.nextId src snk lat],
      w.defaultSink,
      w.streams ++ [⟨Nat.repr w.nextId, some w.nextId, some ("module-loopback.c"),
        some ("module-loopback"), some ("Loopback from " ++ src), snk⟩],
      w.cards, w.serverInfo, w.nextId + 1⟩
  | .unloadModule i =>
    let removedSinkName : Option String :=
      (w.modules.find? (fun m => midOf m = i)).bind moduleSinkName
    ⟨(match removedSinkName with
      | some n => w.sinks.filter (fun s => s.name ≠ n)
      | none => w.sinks),
      w.modules.filter (fun m => midOf m ≠ i),
      w.defaultSink,
      w.streams.filter (fun st => st.ownerModule ≠ some i),
      w.cards, w.serverInfo, w.nextId⟩
  | .setDefaultSink n =>
    ⟨w.sinks, w.modules, some n, w.streams, w.cards, w.serverInfo, w.nextId⟩
  | .setSinkMute n b =>
    ⟨w.sinks.map (fun s => if s.name = n then ⟨s.name, s.description, b, s.volume, s.activePort, s.cardIdx⟩ else s),
      w.modules, w.defaultSink, w.streams, w.cards, w.serverInfo, w.nextId⟩
  | .setSinkVolume n v =>
    ⟨w.sinks.map (fun s => if s.name = n then ⟨s.name, s.description, s.muted, v, s.activePort, s.cardIdx⟩ else s),
      w.modules, w.defaultSink, w.streams, w.cards, w.serverInfo, w.nextId⟩
  | .moveSinkInput iid target =>
    ⟨w.sinks, w.modules, w.defaultSink,
      w.streams.map (fun st =>
        if st.iid = iid then ⟨st.iid, st.ownerModule, st.driver, st.appName, st.mediaName, target⟩ else st),
      w.cards, w.serverInfo, w.nextId⟩
  | .setPortLatencyOffset _ _ _ =>
    w

/-- An execution context: the current server state plus the trace of
mutating commands issued so far. -/
structure Exec where
  world : World
  trace : List Cmd
deriving DecidableEq

/-- Fresh execution over a given server state. -/
def Exec.init (w : World) : Exec := ⟨w, []⟩

/-- Issue one mutating command: apply it to the server and record it. -/
def emit (c : Cmd) (e : Exec) : Exec := ⟨applyCmd c e.world, e.trace ++ [c]⟩

/-- Issue a `move-sink-input` for each id in the list (the loop bodies of
`move_streams_to_master`, `_restore_eq_routing`, `_cleanup_locked`). -/
def emitMoveAll (ids : List String) (target : String) (e : Exec) : Exec :=
  ids.foldl (fun e i => emit (Cmd.moveSinkInput i target) e) e

-- ---------------------------------------------------------------------------
-- Structural observations (the gateway+parser collapsed)
-- ---------------------------------------------------------------------------

/-- Substring check against the short sink listing
(`'eq_sink' in run_cmd('pactl','list','sinks','short',...)`): the only
free-text column of the rendered listing is the sink name, so the check
holds exactly when some sink name contains the pattern. -/
def sinksShortContains (pat : String) (w : World) : Bool :=
  w.sinks.any (fun s => occursIn pat.data s.name.data)

/-- `_detect_all_devices` (src/audio_backend.py:617) read off the
structured world: one classified device per non-infrastructure sink.
Availability comes from membership in the short listing, which renders the
same sink set, so it is always true here. -/
def detectDevices (virtual_sink : String) (w : World) : List OutputDevice :=
  w.sinks.filterMap (fun s =>
    match classify_sink virtual_sink s.name.data with
    | some t => some ⟨s.name, s.description, t, false, true⟩
    | none => none)

/-- The sink names of the detected devices. -/
def deviceSinkNames (virtual_sink : String) (w : World) : List String :=
  (detectDevices virtual_sink w).map OutputDevice.sink_name

/-- First `module-combine-sink` module whose arguments carry
`sink_name=virtual`, with its slaves: the module scan of `_refresh_state`
(src/audio_backend.py:586-601) and `_get_combine_slaves`
(src/audio_backend.py:464). -/
def findCombineFor (virtual : String) : List ModuleRec → Option (Nat × List String)
  | [] => none
  | .combineSink i n slaves :: rest =>
    if n = virtual then some (i, slaves) else findCombineFor virtual rest
  | _ :: rest => findCombineFor virtual rest

/-- `_get_combine_slaves` (src/audio_backend.py:464): slaves of our
combine-sink module, `[]` when absent. -/
def get_combine_slaves (virtual : String) (w : World) : List String :=
  match findCombineFor virtual w.modules with
  | some p => p.2
  | none => []

/-- `_find_module_id(modules_output, 'module-null-sink',
f'sink_name={virtual}')` (src/audio_backend.py:673): first null-sink
module named for our virtual sink. -/
def findNullFor (virtual : String) : List ModuleRec → Option Nat
  | [] => none
  | .nullSink i n :: rest => if n = virtual then some i else findNullFor virtual rest
  | _ :: rest => findNullFor virtual rest

/-- `_find_all_loopbacks` (src/audio_backend.py:685): all loopback modules
feeding `sink` from our virtual sink's monitor, with their latency.  The
source substring-matches the rendered argument string; here the parsed
fields are compared directly.  The unused `has_flags` component is
dropped. -/
def findAllLoopbacks (virtual sink : String) (w : World) : List (Nat × Int) :=
  w.modules.filterMap (fun m =>
    match m with
    | .loopback i src snk lat =>
      if snk = sink && src = virtual ++ (".monitor") then some (i, lat) else none
    | _ => none)

/-- Ids of all loopback modules (`_find_loopback_module_ids` read off the
structured world). -/
def loopbackIds (w : World) : List Nat :=
  w.modules.filterMap (fun m =>
    match m with
    | .loopback i _ _ _ => some i
    | _ => none)

/-- Ids of all combine-sink modules (the combine scan of
`list_movable_sink_inputs` read off the structured world). -/
def combineIds (w : World) : List Nat :=
  w.modules.filterMap (fun m =>
    match m with
    | .combineSink i _ _ => some i
    | _ => none)

/-- The exclusion ladder of `list_movable_sink_inputs`
(src/audio_backend.py:125-135) on a structured stream record. -/
def isMovableStream (loopback_modules combine_modules : List Nat) (st : StreamRec) : Bool :=
  (match st.ownerModule with
   | some i => !(decide (i ∈ loopback_modules) || decide (i ∈ combine_modules))
   | none => true) &&
  (match st.driver with
   | some d =>
     !(occursIn ("module-loopback".data) d.data || occursIn ("module-combine-sink".data) d.data)
   | none => true) &&
  !(st.appName = some ("module-loopback") || st.appName = some ("module-ladspa-sink") ||
    st.appName = some ("module-combine-sink")) &&
  (match st.mediaName with
   | some m =>
     !(!m.data.isEmpty && (occursIn ("Loopback".data) m.data || occursIn ("Simultaneous".data) m.data))
   | none => true)

/-- `list_movable_sink_inputs` (src/audio_backend.py:91) read off the
structured world. -/
def movableSinkInputs (w : World) : List String :=
  w.streams.filterMap (fun st =>
    if isMovableStream (loopbackIds w) (combineIds w) st then some st.iid else none)

/-- `AudioState` (src/audio_backend.py:175). -/
structure AudioState where
  combine_sink_exists : Bool
  combine_sink_module_id : Option Nat
  default_sink : Option String
  devices : List OutputDevice
  is_pipewire : Bool
deriving DecidableEq

/-- `_refresh_state` (src/audio_backend.py:565): detect devices, read the
default sink, and in PipeWire mode look for our combine-sink module
(marking its slaves synced), in PulseAudio mode look for our null sink and
mark devices with loopbacks synced. -/
def refresh_state (is_pw : Bool) (virtual : String) (w : World) : AudioState :=
  let devices := detectDevices virtual w
  if is_pw then
    match findCombineFor virtual w.modules with
    | some p =>
      ⟨true, some p.1, w.defaultSink,
        devices.map (fun d =>
          if decide (d.sink_name ∈ p.2) then
            ⟨d.sink_name, d.description, d.device_type, true, d.is_available⟩
          else d),
        true⟩
    | none => ⟨false, none, w.defaultSink, devices, true⟩
  else
    let nid := findNullFor virtual w.modules
    ⟨nid.isSome, nid, w.defaultSink,
      devices.map (fun d =>
        if (findAllLoopbacks virtual d.sink_name w).isEmpty then d
        else ⟨d.sink_name, d.description, d.device_type, true, d.is_available⟩),
      false⟩

/-- A Python set-equality test on lists of strings
(`set(current_slaves) == set(device_sinks)`). -/
def listSetEq (a b : List String) : Bool :=
  a.all (fun x => decide (x ∈ b)) && b.all (fun x => decide (x ∈ a))

/-- The converged test for the PipeWire strategy: our combine-sink module
is loaded and its slave set equals the detected device set, which is
nonempty.  This is the exact condition under which
`_setup_combine_sink_locked` takes its early "already correct" branch. -/
def pwConvergedB (virtual : String) (w : World) : Bool :=
  match findCombineFor virtual w.modules with
  | some p =>
    !(deviceSinkNames virtual w).isEmpty && listSetEq p.2 (deviceSinkNames virtual w)
  | none => false

/-- The converged test for the PulseAudio strategy: our null sink is
loaded and every detected device already has a loopback from the virtual
sink's monitor. -/
def paReadyB (virtual : String) (w : World) : Bool :=
  (findNullFor virtual w.modules).isSome &&
  (detectDevices virtual w).all
    (fun d => !(findAllLoopbacks virtual d.sink_name w).isEmpty)

-- ---------------------------------------------------------------------------
-- The reconciliation engine (class AudioBackend)
-- ---------------------------------------------------------------------------

/-- `move_streams_to_master` (src/audio_backend.py:336): move every movable
stream to the virtual sink, or to `eq_sink` when it exists. -/
def move_streams_to_master (virtual : String) (e : Exec) : Exec :=
  let target := if sinksShortContains ("eq_sink") e.world then "eq_sink" else virtual
  emitMoveAll (movableSinkInputs e.world) target e

/-- `_restore_eq_routing` (src/audio_backend.py:721): when `eq_sink`
exists, make it the default and move every movable stream onto it. -/
def restore_eq_routing (e : Exec) : Exec :=
  if sinksShortContains ("eq_sink") e.world then
    let e := emit (Cmd.setDefaultSink ("eq_sink")) e
    emitMoveAll (movableSinkInputs e.world) ("eq_sink") e
  else e

/-- `_cleanup_ghost_modules` (src/audio_backend.py:703): unload every
null-sink or combine-sink module bearing our virtual sink's name, from one
snapshot of the module listing. -/
def cleanup_ghost_modules (virtual : String) (e : Exec) : Exec :=
  (ghostIdsOf virtual e.world.modules).foldl (fun e i => emit (Cmd.unloadModule i) e) e

/-- Mark the state's devices that are in the slave list synced
(src/audio_backend.py:419-421). -/
def markSynced (st : AudioState) (device_sinks : List String) : AudioState :=
  ⟨st.combine_sink_exists, st.combine_sink_module_id, st.default_sink,
    st.devices.map (fun d =>
      if decide (d.sink_name ∈ device_sinks) then
        ⟨d.sink_name, d.description, d.device_type, true, d.is_available⟩
      else d),
    st.is_pipewire⟩

/-- The "Audio sync active (N device/devices)" message
(src/audio_backend.py:423 and 546). -/
def syncActiveMsg (count : Nat) : String :=
  "Audio sync active (" ++ Nat.repr count ++ " device" ++
    (if count ≠ 1 then "s" else "") ++ ")"

/-- `_setup_combine_sink_locked` (src/audio_backend.py:400), PipeWire mode.
Command execution always succeeds in the world model, so the
`if not result` failure branch after `load-module` (line 442) is
unreachable and elided.  Returns (success, message), the backend state the
method leaves behind, and the execution. -/
def setup_combine_sink_locked (virtual : String) (e : Exec) :
    (Bool × String) × AudioState × Exec :=
  let st := refresh_state true virtual e.world
  let device_sinks := (st.devices.filter (fun d => d.is_available)).map (fun d => d.sink_name)
  if device_sinks.isEmpty then ((false, "No output devices detected"), st, e)
  else if st.combine_sink_exists && listSetEq (get_combine_slaves virtual e.world) device_sinks then
    let e := emit (Cmd.setSinkMute virtual false) e
    ((true, syncActiveMsg device_sinks.length), markSynced st device_sinks, e)
  else
    let e :=
      if st.combine_sink_exists then
        match st.combine_sink_module_id with
        | some i => emit (Cmd.unloadModule i) e
        | none => e
      else e
    let messages := if st.combine_sink_exists then ["Rebuilding sync for new devices"] else []
    let e := cleanup_ghost_modules virtual e
    let e := emit (Cmd.loadCombineSink virtual device_sinks) e
    let messages := messages ++ ["Synced " ++ Nat.repr device_sinks.length ++ " devices"]
    let e := emit (Cmd.setDefaultSink virtual) e
    let e := emit (Cmd.setSinkMute virtual false) e
    let e := device_sinks.foldl (fun e n => emit (Cmd.setSinkMute n false) e) e
    let e := restore_eq_routing e
    let e := move_streams_to_master virtual e
    ((true, String.intercalate ("; ") messages), st, e)

/-- The per-device body of step 3 of `_setup_loopback_locked`
(src/audio_backend.py:522-538): skip unavailable or already synced
devices; otherwise unmute, set full volume, and create the loopback with
the configured delay (which always succeeds in the world model, so the
success message is always appended). -/
def loopbackStep (virtual : String) (cfg : Config) (acc : List String × Exec)
    (d : OutputDevice) : List String × Exec :=
  if !d.is_available || d.is_synced then acc
  else
    let delay := get_device_delay cfg d.sink_name
    let e := emit (Cmd.setSinkMute d.sink_name false) acc.2
    let e := emit (Cmd.setSinkVolume d.sink_name 100) e
    let e := emit (Cmd.loadLoopback (virtual ++ (".monitor")) d.sink_name delay) e
    let dtype := if d.device_type = "bluetooth" then "BT" else "Analog"
    (acc.1 ++ ["Synced " ++ dtype ++ ": " ++ displayName d], e)

/-- `_setup_loopback_locked` (src/audio_backend.py:486), PulseAudio mode.
Command execution always succeeds in the world model, so the
`Failed to create virtual sink` branch (line 509) is unreachable and
elided; the sample-specification probe only shapes the null-sink
arguments and is not modelled. -/
def setup_loopback_locked (virtual : String) (cfg : Config) (e : Exec) :
    (Bool × String) × AudioState × Exec :=
  let st := refresh_state false virtual e.world
  let created := !st.combine_sink_exists
  let e := if created then emit (Cmd.loadNullSink virtual) e else e
  let messages : List String := if created then ["Created virtual master sink"] else []
  let st := if created then refresh_state false virtual e.world else st
  let e := if st.default_sink ≠ some virtual then emit (Cmd.setDefaultSink virtual) e else e
  let e := emit (Cmd.setSinkVolume virtual 100) e
  let e := emit (Cmd.setSinkMute virtual false) e
  let st := refresh_state false virtual e.world
  let acc := st.devices.foldl (loopbackStep virtual cfg) (messages, e)
  let e := restore_eq_routing acc.2
  let e := move_streams_to_master virtual e
  if acc.1.isEmpty then
    ((true, syncActiveMsg (st.devices.filter (fun d => d.is_available)).length), st, e)
  else
    ((true, String.intercalate ("; ") acc.1), st, e)

/-- `_set_port_latency_offset` (src/audio_backend.py:816): locate the sink
block, its active port and owning card, resolve the card name, and apply
the offset in microseconds; any missing piece returns false.  The final
`bool(run_cmd(...))` is true in the world model. -/
def set_port_latency_offset (sink_name : String) (delay_ms : Int) (e : Exec) : Bool × Exec :=
  if e.world.sinks.isEmpty then (false, e)
  else
    match e.world.sinks.find? (fun s => s.name = sink_name) with
    | none => (false, e)
    | some s =>
      match s.activePort with
      | none => (false, e)
      | some port =>
        match s.cardIdx with
        | none => (false, e)
        | some ci =>
          match (e.world.cards.find? (fun p => p.1 = ci)).map Prod.snd with
          | none => (false, e)
          | some cardName =>
            (true, emit (Cmd.setPortLatencyOffset cardName port (delay_ms * 1000)) e)

/-- `set_analog_offset` (src/audio_backend.py:253): clamp the offset into
[-150, 150], persist it, then apply: in PipeWire mode as a port latency
offset of `max(0, 121 + offset)` ms, in PulseAudio mode by unloading the
device's loopbacks and recreating one with absolute latency
`max(1, 121 + offset)` ms (always reporting true). -/
def set_analog_offset (is_pw : Bool) (virtual : String) (cfg : Config) (sink_name : String)
    (offset_ms : Int) (e : Exec) : Bool × Config × Exec :=
  let offset := max (-150) (min 150 offset_ms)
  let cfg := set_device_offset cfg sink_name offset
  if is_pw then
    let actual := max 0 (DEFAULT_ANALOG_DELAY + offset)
    let r := set_port_latency_offset sink_name actual e
    (r.1, cfg, r.2)
  else
    let actual := max 1 (DEFAULT_ANALOG_DELAY + offset)
    let loops := findAllLoopbacks virtual sink_name e.world
    let e := loops.foldl (fun e p => emit (Cmd.unloadModule p.1) e) e
    let e := emit (Cmd.loadLoopback (virtual ++ (".monitor")) sink_name actual) e
    (true, cfg, e)

/-- `_find_fallback_sink` (src/audio_backend.py:867): first `alsa_output.`
sink, else first `bluez_` sink. -/
def find_fallback_sink (w : World) : Option String :=
  match w.sinks.find? (fun s => chStartsWith ("alsa_output.".data) s.name.data) with
  | some s => some s.name
  | none =>
    match w.sinks.find? (fun s => chStartsWith ("bluez_".data) s.name.data) with
    | some s => some s.name
    | none => none

/-- `_cleanup_locked` (src/audio_backend.py:781): from one snapshot of the
module listing, unload every loopback fed from our virtual sink's monitor
and every combine/null module bearing our name, then restore a hardware
fallback default and migrate the movable streams to it. -/
def cleanup_locked (virtual : String) (e : Exec) : Exec :=
  let fallback := find_fallback_sink e.world
  let snapshot := e.world.modules
  let loopIdsHere := snapshot.filterMap (fun m =>
    match m with
    | .loopback i src _ _ => if src = virtual ++ (".monitor") then some i else none
    | _ => none)
  let e := loopIdsHere.foldl (fun e i => emit (Cmd.unloadModule i) e) e
  let e := (ghostIdsOf virtual snapshot).foldl (fun e i => emit (Cmd.unloadModule i) e) e
  match fallback with
  | some fb =>
    let e := emit (Cmd.setDefaultSink fb) e
    emitMoveAll (movableSinkInputs e.world) fb e
  | none => e

/-- `_fix_loopback_routing_locked` (src/audio_backend.py:729): for each
stream owned by one of our loopback modules, move it back to the sink its
module's arguments name, when that sink exists and differs from the
stream's current one.  The sink-index indirection of the pactl output is
collapsed to direct name comparison. -/
def fix_loopback_routing_locked (virtual : String) (e : Exec) : Exec :=
  if e.world.streams.isEmpty then e
  else
    let module_to_sink := e.world.modules.filterMap (fun m =>
      match m with
      | .loopback i src snk _ =>
        if src = virtual ++ (".monitor") then some (i, snk) else none
      | _ => none)
    let sinkNamesHere := e.world.sinks.map SinkRec.name
    e.world.streams.foldl (fun e stm =>
      match stm.ownerModule with
      | none => e
      | some mid =>
        match (module_to_sink.find? (fun p => p.1 = mid)).map Prod.snd with
        | none => e
        | some expected =>
          if decide (expected ∈ sinkNamesHere) && stm.sink ≠ expected then
            emit (Cmd.moveSinkInput stm.iid expected) e
          else e) e

/-- The engine instance state (class `AudioBackend`): configured virtual
sink name, cached `AudioState`, and the backend strategy flag computed
once in `__init__`.  The lock, monitor thread and callback are not
modelled (operations are already serialized here). -/
structure Backend where
  virtual_sink : String
  state : AudioState
  is_pipewire : Bool
deriving DecidableEq

/-- `_detect_pipewire` (src/audio_backend.py:552): probe `pactl info` for
the `PipeWire` substring. -/
def detect_pipewire (w : World) : Bool :=
  occursIn ("PipeWire".data) w.serverInfo.data

/-- `AudioBackend.__init__` (src/audio_backend.py:224): read the virtual
sink name from the configuration, start from an empty `AudioState`, and
probe the backend strategy once. -/
def Backend.init (cfg : Config) (w : World) : Backend :=
  ⟨cfg.virtual_sink, ⟨false, none, none, [], false⟩, detect_pipewire w⟩

/-- `setup_sync` (src/audio_backend.py:241): dispatch to the
combine-sink or loopback reconciliation by the backend flag, updating the
cached state. -/
def setup_sync (b : Backend) (cfg : Config) (e : Exec) : (Bool × String) × Backend × Exec :=
  if b.is_pipewire then
    let r := setup_combine_sink_locked b.virtual_sink e
    (r.1, ⟨b.virtual_sink, r.2.1, b.is_pipewire⟩, r.2.2)
  else
    let r := setup_loopback_locked b.virtual_sink cfg e
    (r.1, ⟨b.virtual_sink, r.2.1, b.is_pipewire⟩, r.2.2)

/-- The public operations of the backend driven in claim C8's reachability
argument. -/
inductive BackendOp where
  | opGetState
  | opSetupSync
  | opSetAnalogOffset (sink_name : String) (offset_ms : Int)
  | opCleanup
  | opMoveStreams
  | opFixLoopbackRouting

/-- One public operation applied to an engine instance
(`get_state`, `setup_sync`, `set_analog_offset`, `cleanup`,
`move_streams_to_master`, `fix_loopback_routing`). -/
def Backend.step (b : Backend) (cfg : Config) (e : Exec) :
    BackendOp → Backend × Config × Exec
  | .opGetState =>
    (⟨b.virtual_sink, refresh_state b.is_pipewire b.virtual_sink e.world, b.is_pipewire⟩, cfg, e)
  | .opSetupSync =>
    let r := setup_sync b cfg e
    (r.2.1, cfg, r.2.2)
  | .opSetAnalogOffset n ms =>
    if b.is_pipewire then
      let r := set_analog_offset true b.virtual_sink cfg n ms e
      (b, r.2.1, r.2.2)
    else
      let st := refresh_state false b.virtual_sink e.world
      let r := set_analog_offset false b.virtual_sink cfg n ms e
      (⟨b.virtual_sink, st, b.is_pipewire⟩, r.2.1, r.2.2)
  | .opCleanup => (b, cfg, cleanup_locked b.virtual_sink e)
  | .opMoveStreams => (b, cfg, move_streams_to_master b.virtual_sink e)
  | .opFixLoopbackRouting =>
    if b.is_pipewire then (b, cfg, e)
    else
      (⟨b.virtual_sink, refresh_state false b.virtual_sink e.world, b.is_pipewire⟩, cfg,
        fix_loopback_routing_locked b.virtual_sink e)

/-- Run a sequence of public operations. -/
def Backend.run (b : Backend) (cfg : Config) (e : Exec) :
    List BackendOp → Backend × Config × Exec
  | [] => (b, cfg, e)
  | op :: rest =>
    let r := b.step cfg e op
    Backend.run r.1 r.2.1 r.2.2 rest

/-- Well-formed server state: module ids are distinct and below the next
fresh id. -/
def WFWorld (w : World) : Prop :=
  (w.modules.map midOf).Nodup ∧ ∀ m ∈ w.modules, midOf m < w.nextId

instance : DecidablePred WFWorld := fun w => by
  unfold WFWorld
  infer_instance

/-- Unloading id `i` in `w` can only remove sinks named `v`: every module
bearing id `i` either creates no sink or creates the sink named `v`. -/
def unloadSafe (v : String) (w : World) (i : Nat) : Prop :=
  ∀ m ∈ w.modules, midOf m = i → ∀ n, moduleSinkName m = some n → n = v

/-- The delay parameter a command carries is non-negative (trivially true
for commands without one). -/
def cmdDelayNonneg : Cmd → Bool
  | .loadLoopback _ _ lat => decide (0 ≤ lat)
  | .setPortLatencyOffset _ _ u => decide (0 ≤ u)
  | _ => true

-- ---------------------------------------------------------------------------
-- Concrete server states and dumps used by counterexamples and witnesses
-- ---------------------------------------------------------------------------

/-- A PipeWire server with no sinks at all. -/
def w_pw_empty : World :=
  ⟨[], [], none, [], [], "Server Name: PulseAudio (on PipeWire 1.0.5)", 0⟩

/-- A PulseAudio server with no sinks at all. -/
def w_pa_empty : World :=
  ⟨[], [], none, [], [], "Server Name: pulseaudio", 0⟩

/-- A PipeWire server with one analog card and no sync infrastructure. -/
def w_pw_fresh : World :=
  ⟨[⟨"alsa_output.pci_card", "Built-in Audio", false, 100, none, none⟩],
    [], none, [], [], "Server Name: PulseAudio (on PipeWire 1.0.5)", 0⟩

/-- A converged PipeWire server: one analog card, the combine sink loaded
with exactly that card as slave, default already on the virtual sink,
everything unmuted. -/
def w_pw_converged : World :=
  ⟨[⟨"alsa_output.pci_card", "Built-in Audio", false, 100, none, none⟩,
     ⟨"audio_master", "Audio_Master", false, 100, none, none⟩],
    [.combineSink 0 ("audio_master") [("alsa_output.pci_card")]],
    some ("audio_master"), [], [],
    "Server Name: PulseAudio (on PipeWire 1.0.5)", 1⟩

/-- A `pactl list sink-inputs` dump with one ordinary application stream. -/
def sampleSinkInputsDump : String :=
  "Sink Input #7\n\tDriver: protocol-native.c\n\tOwner Module: 9\n\tSink: 1\n\tProperties:\n\t\tapplication.name = \"mpv\"\n\t\tmedia.name = \"song\"\n"

/-- A `pactl list sinks` dump with one Bluetooth sink whose name also
contains the `null` pattern. -/
def sampleSinksDump : String :=
  "Sink #0\n\tState: RUNNING\n\tName: bluez_sink.null_speaker.a2dp\n\tDescription: BT Box\n"

/-- The matching short listing for `sampleSinksDump`. -/
def sampleSinksShort : String :=
  "0\tbluez_sink.null_speaker.a2dp\tmodule-bluez5-device.c\ts16le 2ch 44100Hz\tRUNNING\n"

-- ---------------------------------------------------------------------------
-- Shared helper lemmas
-- ---------------------------------------------------------------------------

theorem trace_emit (c : Cmd) (e : Exec) : (emit c e).trace = e.trace ++ [c] := rfl

theorem clamp150_idem (ms : Int) :
    max (-150) (min 150 (max (-150) (min 150 ms))) = max (-150) (min 150 ms) := by
  have h1 : max (-150 : Int) (min 150 ms) ≤ 150 := max_le (by norm_num) (min_le_left _ _)
  have h2 : (-150 : Int) ≤ max (-150) (min 150 ms) := le_max_left _ _
  rw [min_eq_right h1, max_eq_right h2]

theorem trace_unload_fold (ids : List (Nat × Int)) (e : Exec) :
    (ids.foldl (fun e p => emit (Cmd.unloadModule p.1) e) e).trace =
      e.trace ++ ids.map (fun p => Cmd.unloadModule p.1) := by
  induction ids generalizing e with
  | nil => simp
  | cons p rest ih =>
    rw [List.foldl_cons, ih, trace_emit]
    simp

-- ---------------------------------------------------------------------------
-- C2: the process gateway
-- ---------------------------------------------------------------------------

/-- C2 counterexample: a process that exits non-zero after printing to
stdout makes the capturing form return that output, not the empty string —
the capture branch of `run_cmd` passes no `check=True`, so a non-zero exit
raises nothing and `result.stdout` is returned as-is. -/
theorem c2_counterexample :
    runCmd (fun _ => ProcOutcome.completed 1 ("error text on stdout")) true ≠
      CmdResult.text ("") := by
  decide

/-- C2 (amended): `run_cmd` never raises and every invocation is bounded by
the fixed 5-second timeout; on timeout or missing executable the capturing
form returns the empty string and the non-capturing form returns false;
on a non-zero exit status the non-capturing form returns false, but the
capturing form returns the process's stdout unchanged (empty only if the
process printed nothing). -/
theorem c2_run_cmd_total_bounded (exec : Nat → ProcOutcome) :
    (runCmd exec true =
      CmdResult.text (match exec 5 with
        | .completed _ out => out
        | .timedOut => ""
        | .missingExe => "")) ∧
    (runCmd exec false =
      CmdResult.flag (match exec 5 with
        | .completed code _ => decide (code = 0)
        | .timedOut => false
        | .missingExe => false)) := by
  constructor <;> (cases h : exec 5 <;> simp [runCmd, h])

-- ---------------------------------------------------------------------------
-- C9: configuration delay setters clamp into [1, 500]
-- ---------------------------------------------------------------------------

/-- C9: every delay written through `set_device_delay`,
`set_default_analog_delay` or `set_default_bt_delay` is clamped into
[1, 500] before being stored, so every persisted delay is strictly
positive and at most 500. -/
theorem c9_delay_setters_clamp (c : Config) (sink_name : String) (d : Int) :
    lookupKey (set_device_delay c sink_name d).device_delays sink_name =
      some (max 1 (min 500 d)) ∧
    (set_default_analog_delay c d).default_analog_delay_ms = max 1 (min 500 d) ∧
    (set_default_bt_delay c d).default_bt_delay_ms = max 1 (min 500 d) ∧
    1 ≤ max 1 (min 500 d) ∧ max 1 (min 500 d) ≤ 500 := by
  refine ⟨?_, rfl, rfl, le_max_left _ _, max_le (by norm_num) (min_le_left _ _)⟩
  simp [set_device_delay, lookupKey]

-- ---------------------------------------------------------------------------
-- C7: delay resolution
-- ---------------------------------------------------------------------------

/-- C7: the resolved delay is the explicit per-device override when one is
present in the configuration's override map; otherwise it is the per-class
default — the Bluetooth default when the identity contains a
Bluetooth-stack marker, else the analog default — and on the default
configuration those defaults are 1 ms and 121 ms. -/
theorem c7_get_device_delay (c : Config) (sink_name : String) (d : Int) :
    (lookupKey c.device_delays sink_name = some d → get_device_delay c sink_name = d) ∧
    (lookupKey c.device_delays sink_name = none →
      get_device_delay c sink_name =
        (if isBluetoothName sink_name then c.default_bt_delay_ms
         else c.default_analog_delay_ms)) ∧
    defaultConfig.default_bt_delay_ms = 1 ∧
    defaultConfig.default_analog_delay_ms = 121 := by
  refine ⟨?_, ?_, rfl, rfl⟩ <;> intro h <;> simp [get_device_delay, h]

/-- C7 witness: on the default configuration a Bluetooth sink with no
override resolves to the Bluetooth default. -/
theorem c7_witness :
    lookupKey defaultConfig.device_delays ("bluez_sink.speaker") = none ∧
    get_device_delay defaultConfig ("bluez_sink.speaker") =
      (if isBluetoothName ("bluez_sink.speaker") then defaultConfig.default_bt_delay_ms
       else defaultConfig.default_analog_delay_ms) :=
  ⟨by decide, (c7_get_device_delay defaultConfig ("bluez_sink.speaker") 0).2.1 (by decide)⟩

-- ---------------------------------------------------------------------------
-- C4: offset clamping and non-negative effective delay
-- ---------------------------------------------------------------------------

/-- C4: `set_analog_offset` clamps the requested offset into [-150, 150]
before resolving the effective delay — calling it with any `ms` is the
same as calling it with the clamped value — and every delay parameter it
sends to the server (the port latency offset `max(0, 121+offset)·1000` µs
in PipeWire mode, the loopback latency `max(1, 121+offset)` ms in
PulseAudio mode) is non-negative. -/
theorem set_analog_offset_pw_exec (virtual : String) (cfg : Config) (sink_name : String)
    (ms : Int) (e : Exec) :
    (set_analog_offset true virtual cfg sink_name ms e).2.2 =
      (set_port_latency_offset sink_name
        (max 0 (DEFAULT_ANALOG_DELAY + max (-150) (min 150 ms))) e).2 := rfl

theorem set_analog_offset_pa_exec (virtual : String) (cfg : Config) (sink_name : String)
    (ms : Int) (e : Exec) :
    (set_analog_offset false virtual cfg sink_name ms e).2.2 =
      emit (Cmd.loadLoopback (virtual ++ (".monitor")) sink_name
          (max 1 (DEFAULT_ANALOG_DELAY + max (-150) (min 150 ms))))
        ((findAllLoopbacks virtual sink_name e.world).foldl
          (fun e p => emit (Cmd.unloadModule p.1) e) e) := rfl

theorem set_port_latency_trace (sink_name : String) (d : Int) (e : Exec) :
    (set_port_latency_offset sink_name d e).2.trace = e.trace ∨
    ∃ card port, (set_port_latency_offset sink_name d e).2.trace =
      e.trace ++ [Cmd.setPortLatencyOffset card port (d * 1000)] := by
  unfold set_port_latency_offset
  split
  · exact Or.inl rfl
  · split
    · exact Or.inl rfl
    · split
      · exact Or.inl rfl
      · split
        · exact Or.inl rfl
        · split
          · exact Or.inl rfl
          · exact Or.inr ⟨_, _, rfl⟩

theorem c4_offset_clamped_nonneg (is_pw : Bool) (virtual : String) (cfg : Config)
    (sink_name : String) (ms : Int) (w : World) :
    set_analog_offset is_pw virtual cfg sink_name ms (Exec.init w) =
      set_analog_offset is_pw virtual cfg sink_name (max (-150) (min 150 ms)) (Exec.init w) ∧
    ((set_analog_offset is_pw virtual cfg sink_name ms (Exec.init w)).2.2.trace.all
      cmdDelayNonneg) = true := by
  constructor
  · simp only [set_analog_offset, clamp150_idem]
  · have hoff : (0 : Int) ≤ max 0 (DEFAULT_ANALOG_DELAY + max (-150) (min 150 ms)) :=
      le_max_left _ _
    have hoff1 : (0 : Int) ≤ max 1 (DEFAULT_ANALOG_DELAY + max (-150) (min 150 ms)) :=
      le_trans (by norm_num) (le_max_left _ _)
    cases is_pw with
    | true =>
      rw [set_analog_offset_pw_exec]
      rcases set_port_latency_trace sink_name
          (max 0 (DEFAULT_ANALOG_DELAY + max (-150) (min 150 ms))) (Exec.init w) with
        h | ⟨card, port, h⟩
      · rw [h]; rfl
      · rw [h]
        simp only [Exec.init, List.nil_append, List.all_cons, List.all_nil,
          Bool.and_eq_true, cmdDelayNonneg]
        exact ⟨by simp [mul_nonneg hoff], trivial⟩
    | false =>
      rw [set_analog_offset_pa_exec, trace_emit, trace_unload_fold]
      simp only [Exec.init, List.nil_append, List.all_append, List.all_cons, List.all_nil,
        Bool.and_eq_true]
      refine ⟨?_, ?_, trivial⟩
      · rw [List.all_eq_true]
        intro c hc
        rw [List.mem_map] at hc
        obtain ⟨p, _, rfl⟩ := hc
        rfl
      · simp [cmdDelayNonneg, hoff1]

-- ---------------------------------------------------------------------------
-- C10: offset persisted before (and regardless of) the apply step
-- ---------------------------------------------------------------------------

/-- C10: `set_analog_offset` persists the clamped offset into the
configuration store before attempting to apply it: the configuration it
returns equals the pure `set_device_offset` write, independent of the
server state and of whether the apply step succeeds, and reading the
offset back yields the clamped value; moreover there is a concrete server
state (a sink with no active port data) on which the apply step returns
false while the configuration change is still retained — the operation is
not atomic. -/
theorem c10_offset_persisted (is_pw : Bool) (virtual : String) (cfg : Config)
    (sink_name : String) (ms : Int) (e : Exec) :
    (set_analog_offset is_pw virtual cfg sink_name ms e).2.1 =
      set_device_offset cfg sink_name ms ∧
    get_device_offset (set_analog_offset is_pw virtual cfg sink_name ms e).2.1 sink_name =
      max (-150) (min 150 ms) ∧
    (set_analog_offset true virtual cfg sink_name ms (Exec.init w_pw_empty)).1 = false := by
  have hcfg : (set_analog_offset is_pw virtual cfg sink_name ms e).2.1 =
      set_device_offset cfg sink_name ms := by
    cases is_pw <;>
      simp [set_analog_offset, set_device_offset, clamp150_idem]
  refine ⟨hcfg, ?_, rfl⟩
  rw [hcfg]
  simp [get_device_offset, set_device_offset, lookupKey]

-- ---------------------------------------------------------------------------
-- C5: infrastructure streams never appear in the movable list
-- ---------------------------------------------------------------------------

theorem movableId_excluded_false (lms cms : List Nat) (block : List Char) (s : String)
    (h : movableId lms cms block = some s) :
    ∃ pf, parseStreamBlock block = some pf ∧ String.mk pf.1 = s ∧
      excludedStream lms cms pf.2 = false := by
  cases hp : parseStreamBlock block with
  | none => rw [movableId, hp] at h; exact absurd h (by simp)
  | some pf =>
    refine ⟨pf, rfl, ?_⟩
    simp only [movableId, hp] at h
    split at h
    · exact absurd h (by simp)
    · next hcond =>
      rw [Bool.not_eq_true] at hcond
      simp only [Bool.or_eq_false_iff] at hcond
      obtain ⟨⟨⟨ho, _⟩, ha⟩, hm⟩ := hcond
      refine ⟨Option.some.inj h, ?_⟩
      unfold excludedStream
      rw [ho, hm]
      simp [ha.1.1, ha.1.2, ha.2]

/-- C5: every id returned by the movable-stream enumerator
`list_movable_sink_inputs` comes from a parsed sink-input block that is
not excluded: its owning module id is not among the known loopback or
combine-sink module ids, its application name is none of the
infrastructure module names, and its media name contains no
infrastructure marker substring — so a stream with any of those
properties never appears in the returned list. -/
theorem c5_infrastructure_never_movable (sink_inputs_output modules_output : String)
    (s : String) (hs : s ∈ list_movable_sink_inputs sink_inputs_output modules_output) :
    ∃ block ∈ (chSplitOn ("Sink Input #".data) sink_inputs_output.data).drop 1,
      ∃ pf, parseStreamBlock block = some pf ∧ String.mk pf.1 = s ∧
        excludedStream (findLoopbackModuleIds modules_output.data)
          (findCombineModuleIds modules_output.data) pf.2 = false := by
  simp only [list_movable_sink_inputs] at hs
  split at hs
  · exact absurd hs (by simp)
  · rw [List.mem_filterMap] at hs
    obtain ⟨block, hb, hsome⟩ := hs
    exact ⟨block, hb, movableId_excluded_false _ _ _ _ hsome⟩

/-- C5 witness: an ordinary application stream is movable, and the theorem
produces its non-excluded parsed block. -/
theorem c5_witness :
    ("7" : String) ∈ list_movable_sink_inputs sampleSinkInputsDump ("") ∧
    ∃ block ∈ (chSplitOn ("Sink Input #".data) sampleSinkInputsDump.data).drop 1,
      ∃ pf, parseStreamBlock block = some pf ∧ String.mk pf.1 = ("7" : String) ∧
        excludedStream (findLoopbackModuleIds ("" : String).data)
          (findCombineModuleIds ("" : String).data) pf.2 = false :=
  ⟨by decide, c5_infrastructure_never_movable sampleSinkInputsDump ("") ("7") (by decide)⟩

-- ---------------------------------------------------------------------------
-- C6: device classification
-- ---------------------------------------------------------------------------

/-- C6 counterexample: a sink whose identity contains both a
Bluetooth-stack marker and the `null` naming pattern is NOT excluded from
the device list — the Bluetooth branch is tested before the null/tunnel
exclusion, so `bluez_sink.null_speaker.a2dp` is classified `bluetooth`
and appears in the detected devices, where the claim says any entry
matching a null-device naming pattern is excluded entirely. -/
theorem c6_counterexample :
    occursIn ("null".data) ("bluez_sink.null_speaker.a2dp" : String).data = true ∧
    classify_sink ("audio_master") ("bluez_sink.null_speaker.a2dp" : String).data =
      some ("bluetooth") ∧
    detect_all_devices ("audio_master") sampleSinksDump sampleSinksShort =
      [⟨"bluez_sink.null_speaker.a2dp", "BT Box", "bluetooth", false, true⟩] := by
  refine ⟨by decide, by decide, by decide⟩

/-- C6 (amended): the classifier applies its rules in priority order — an
entry named as the configured virtual sink or matching the eq/ladspa
patterns is excluded even if it contains a Bluetooth marker; otherwise an
entry containing a Bluetooth-stack marker is Bluetooth even if it also
matches a null/tunnel pattern; otherwise an entry matching the
null/auto_null/tunnel patterns is excluded; every remaining entry is
Analog. -/
theorem c6_classify_characterization (virtual_sink : String) (n : List Char) :
    (classify_sink virtual_sink n = none ↔
      (n = virtual_sink.data ∨ n = ("eq_sink" : String).data ∨
        occursIn ("ladspa".data) (n.map Char.toLower) = true ∨
        ((occursIn ("bluez_sink".data) n = false ∧ occursIn ("bluez_output".data) n = false) ∧
          (occursIn ("null".data) n = true ∨ occursIn ("auto_null".data) n = true ∨
            chStartsWith ("tunnel.".data) n = true)))) ∧
    (classify_sink virtual_sink n = some ("bluetooth") ↔
      (¬n = virtual_sink.data ∧ ¬n = ("eq_sink" : String).data ∧
        occursIn ("ladspa".data) (n.map Char.toLower) = false ∧
        (occursIn ("bluez_sink".data) n = true ∨ occursIn ("bluez_output".data) n = true))) ∧
    (classify_sink virtual_sink n = some ("analog") ↔
      (¬n = virtual_sink.data ∧ ¬n = ("eq_sink" : String).data ∧
        occursIn ("ladspa".data) (n.map Char.toLower) = false ∧
        occursIn ("bluez_sink".data) n = false ∧ occursIn ("bluez_output".data) n = false ∧
        occursIn ("null".data) n = false ∧ occursIn ("auto_null".data) n = false ∧
        chStartsWith ("tunnel.".data) n = false)) := by
  have hba : ("bluetooth" : String) ≠ ("analog" : String) := by decide
  by_cases h1 : n = virtual_sink.data <;>
    by_cases h2 : n = ("eq_sink" : String).data <;>
    cases h3 : occursIn ("ladspa".data) (n.map Char.toLower) <;>
    cases h4 : occursIn ("bluez_sink".data) n <;>
    cases h5 : occursIn ("bluez_output".data) n <;>
    cases h6 : occursIn ("null".data) n <;>
    cases h7 : occursIn ("auto_null".data) n <;>
    cases h8 : chStartsWith ("tunnel.".data) n <;>
    simp [classify_sink, h1, h2, h3, h4, h5, h6, h7, h8, hba]

-- ---------------------------------------------------------------------------
-- C3: empty device list
-- ---------------------------------------------------------------------------

/-- C3 (amended): in PipeWire mode, when no output devices are detected,
`setup_sync` returns failure with the explicit zero-devices message and
issues no mutating command.  (The PulseAudio path has no such guard: see
the counterexample.) -/
theorem c3_pw_zero_devices (b : Backend) (cfg : Config) (w : World)
    (hpw : b.is_pipewire = true) (hdev : detectDevices b.virtual_sink w = []) :
    (setup_sync b cfg (Exec.init w)).1 = (false, "No output devices detected") ∧
    (setup_sync b cfg (Exec.init w)).2.2.trace = [] := by
  have hst : (refresh_state true b.virtual_sink w).devices = [] := by
    unfold refresh_state
    cases hf : findCombineFor b.virtual_sink w.modules <;> simp [hdev, hf]
  unfold setup_sync
  rw [if_pos hpw]
  unfold setup_combine_sink_locked
  simp [Exec.init, hst]

/-- C3 witness: a PipeWire server with no sinks at all makes `setup_sync`
fail with the zero-devices message without mutating anything. -/
theorem c3_witness :
    (Backend.init defaultConfig w_pw_empty).is_pipewire = true ∧
    detectDevices (Backend.init defaultConfig w_pw_empty).virtual_sink w_pw_empty = [] ∧
    (setup_sync (Backend.init defaultConfig w_pw_empty) defaultConfig
        (Exec.init w_pw_empty)).1 = (false, "No output devices detected") ∧
    (setup_sync (Backend.init defaultConfig w_pw_empty) defaultConfig
        (Exec.init w_pw_empty)).2.2.trace = [] :=
  ⟨by decide, by decide,
    (c3_pw_zero_devices (Backend.init defaultConfig w_pw_empty) defaultConfig w_pw_empty
      (by decide) (by decide)).1,
    (c3_pw_zero_devices (Backend.init defaultConfig w_pw_empty) defaultConfig w_pw_empty
      (by decide) (by decide)).2⟩

/-- C3 counterexample: in PulseAudio mode an empty device list does NOT
produce a failure and DOES mutate the server — `_setup_loopback_locked`
has no zero-devices guard, so on a server with no sinks it loads the
virtual null sink and returns success, where the claim says both backend
modes report failure and make no destructive change. -/
theorem c3_counterexample_pa :
    (Backend.init defaultConfig w_pa_empty).is_pipewire = false ∧
    detectDevices ("audio_master") w_pa_empty = [] ∧
    (setup_sync (Backend.init defaultConfig w_pa_empty) defaultConfig
        (Exec.init w_pa_empty)).1.1 = true ∧
    Cmd.loadNullSink ("audio_master") ∈
      (setup_sync (Backend.init defaultConfig w_pa_empty) defaultConfig
        (Exec.init w_pa_empty)).2.2.trace := by
  refine ⟨by decide, by decide, by decide, by decide⟩

-- ---------------------------------------------------------------------------
-- C8: backend strategy flag immutability
-- ---------------------------------------------------------------------------

theorem step_preserves_pipewire (b : Backend) (cfg : Config) (e : Exec) (op : BackendOp) :
    (b.step cfg e op).1.is_pipewire = b.is_pipewire := by
  cases op with
  | opGetState => rfl
  | opSetupSync =>
    show (setup_sync b cfg e).2.1.is_pipewire = b.is_pipewire
    unfold setup_sync
    split <;> rfl
  | opSetAnalogOffset n ms =>
    by_cases hb : b.is_pipewire = true <;> simp [Backend.step, hb]
  | opCleanup => rfl
  | opMoveStreams => rfl
  | opFixLoopbackRouting =>
    by_cases hb : b.is_pipewire = true <;> simp [Backend.step, hb]

theorem run_preserves_pipewire (ops : List BackendOp) :
    ∀ (b : Backend) (cfg : Config) (e : Exec),
      (Backend.run b cfg e ops).1.is_pipewire = b.is_pipewire := by
  induction ops with
  | nil => intro b cfg e; rfl
  | cons op rest ih =>
    intro b cfg e
    show (Backend.run (b.step cfg e op).1 (b.step cfg e op).2.1
      (b.step cfg e op).2.2 rest).1.is_pipewire = b.is_pipewire
    rw [ih]
    exact step_preserves_pipewire b cfg e op

/-- C8: the backend strategy flag is computed exactly once at construction
by probing the server identity text, and no sequence of public backend
operations ever changes it: after any run of operations the instance's
`is_pipewire` still equals the value assigned in the constructor. -/
theorem c8_backend_flag_immutable (cfg : Config) (w : World) (ops : List BackendOp) :
    ((Backend.init cfg w).run cfg (Exec.init w) ops).1.is_pipewire =
      (Backend.init cfg w).is_pipewire ∧
    (Backend.init cfg w).is_pipewire = detect_pipewire w :=
  ⟨run_preserves_pipewire ops _ _ _, rfl⟩

-- ---------------------------------------------------------------------------
-- C1: lemmas about device detection under command application
-- ---------------------------------------------------------------------------

theorem filterMap_ext {α β : Type} (f g : α → Option β) (l : List α)
    (h : ∀ a, f a = g a) : l.filterMap f = l.filterMap g := by
  induction l with
  | nil => rfl
  | cons a rest ih => simp only [List.filterMap_cons, h a, ih]

theorem filterMap_filter_of_none {α β : Type} (f : α → Option β) (p : α → Bool)
    (l : List α) (h : ∀ a, p a = false → f a = none) :
    (l.filter p).filterMap f = l.filterMap f := by
  induction l with
  | nil => rfl
  | cons a rest ih =>
    cases hp : p a with
    | true => simp only [List.filter_cons, hp, if_true, List.filterMap_cons, ih]
    | false =>
      have hfa := h a hp
      simp [List.filter_cons, List.filterMap_cons, hp, hfa, ih]

theorem classify_self (v : String) : classify_sink v v.data = none := by
  unfold classify_sink
  rw [if_pos rfl]

theorem detect_mute (v n : String) (b : Bool) (w : World) :
    detectDevices v (applyCmd (Cmd.setSinkMute n b) w) = detectDevices v w := by
  unfold detectDevices applyCmd
  rw [List.filterMap_map]
  apply filterMap_ext
  intro s
  by_cases hs : s.name = n <;> simp [hs]

theorem detect_vol (v n : String) (vol : Nat) (w : World) :
    detectDevices v (applyCmd (Cmd.setSinkVolume n vol) w) = detectDevices v w := by
  unfold detectDevices applyCmd
  rw [List.filterMap_map]
  apply filterMap_ext
  intro s
  by_cases hs : s.name = n <;> simp [hs]

theorem detect_load_combine (v : String) (slaves : List String) (w : World) :
    detectDevices v (applyCmd (Cmd.loadCombineSink v slaves) w) = detectDevices v w := by
  unfold detectDevices applyCmd
  rw [List.filterMap_append]
  simp [classify_self]

theorem detect_load_null (v : String) (w : World) :
    detectDevices v (applyCmd (Cmd.loadNullSink v) w) = detectDevices v w := by
  unfold detectDevices applyCmd
  rw [List.filterMap_append]
  simp [classify_self]

theorem detect_unload (v : String) (i : Nat) (w : World)
    (h : unloadSafe v w i) :
    detectDevices v (applyCmd (Cmd.unloadModule i) w) = detectDevices v w := by
  have hw : applyCmd (Cmd.unloadModule i) w =
      ⟨(match (w.modules.find? (fun m => midOf m = i)).bind moduleSinkName with
        | some n => w.sinks.filter (fun s => s.name ≠ n)
        | none => w.sinks),
        w.modules.filter (fun m => midOf m ≠ i), w.defaultSink,
        w.streams.filter (fun st => st.ownerModule ≠ some i),
        w.cards, w.serverInfo, w.nextId⟩ := rfl
  rw [hw]
  cases hf : w.modules.find? (fun m => midOf m = i) with
  | none => rfl
  | some m =>
    have hmem : m ∈ w.modules := List.mem_of_find?_eq_some hf
    have hmid : midOf m = i :=
      of_decide_eq_true
        (@List.find?_some ModuleRec (fun mm => decide (midOf mm = i)) m w.modules hf)
    simp only [Option.some_bind]
    cases hn : moduleSinkName m with
    | none => rfl
    | some n =>
      have hnv : n = v := h m hmem hmid n hn
      unfold detectDevices
      apply filterMap_filter_of_none
      intro s hs
      have hname : s.name = n := not_not.1 (of_decide_eq_false hs)
      have hcl : classify_sink v s.name.data = none := by
        rw [hname, hnv, classify_self]
      simp [hcl]

theorem detect_mem (v : String) (w : World) :
    ∀ d ∈ detectDevices v w, d.is_available = true ∧ d.is_synced = false := by
  intro d hd
  unfold detectDevices at hd
  rw [List.mem_filterMap] at hd
  obtain ⟨s, _, hs⟩ := hd
  cases hcl : classify_sink v s.name.data <;> rw [hcl] at hs
  · exact absurd hs (by simp)
  · cases Option.some.inj hs
    exact ⟨rfl, rfl⟩

-- ---------------------------------------------------------------------------
-- C1: lemmas about refresh_state
-- ---------------------------------------------------------------------------

theorem marked_device_sinks (g : OutputDevice → OutputDevice)
    (hg : ∀ d, (g d).sink_name = d.sink_name ∧ (g d).is_available = d.is_available) :
    ∀ (l : List OutputDevice), (∀ d ∈ l, d.is_available = true) →
      ((l.map g).filter (fun d => d.is_available)).map (fun d => d.sink_name) =
        l.map (fun d => d.sink_name) := by
  intro l hl
  induction l with
  | nil => rfl
  | cons d rest ih =>
    have hav : (g d).is_available = true := by rw [(hg d).2]; exact hl d (by simp)
    simp only [List.map_cons, List.filter_cons, hav, if_true, (hg d).1]
    rw [ih (fun d hd => hl d (by simp [hd]))]

theorem refresh_device_sinks (pw : Bool) (v : String) (w : World) :
    ((refresh_state pw v w).devices.filter (fun d => d.is_available)).map
      (fun d => d.sink_name) = deviceSinkNames v w := by
  have havail : ∀ d ∈ detectDevices v w, d.is_available = true :=
    fun d hd => (detect_mem v w d hd).1
  cases pw with
  | true =>
    cases hf : findCombineFor v w.modules with
    | none =>
      simp only [refresh_state, hf]
      have := marked_device_sinks id (fun d => ⟨rfl, rfl⟩) (detectDevices v w) havail
      simpa using this
    | some p =>
      simp only [refresh_state, hf]
      exact marked_device_sinks _
        (fun d => by by_cases hd : decide (d.sink_name ∈ p.2) = true <;> simp [hd])
        (detectDevices v w) havail
  | false =>
    simp only [refresh_state]
    exact marked_device_sinks _
      (fun d => by
        by_cases hd : (findAllLoopbacks v d.sink_name w).isEmpty = true <;> simp [hd])
      (detectDevices v w) havail

theorem refresh_pw_combine (v : String) (w : World) :
    (refresh_state true v w).combine_sink_exists = (findCombineFor v w.modules).isSome ∧
    (refresh_state true v w).combine_sink_module_id =
      (findCombineFor v w.modules).map Prod.fst := by
  cases hf : findCombineFor v w.modules <;> simp [refresh_state, hf]

theorem refresh_pa_exists (v : String) (w : World) :
    (refresh_state false v w).combine_sink_exists = (findNullFor v w.modules).isSome := by
  simp [refresh_state]

theorem refresh_pa_devices (v : String) (w : World) :
    (refresh_state false v w).devices = (detectDevices v w).map
      (fun d => if (findAllLoopbacks v d.sink_name w).isEmpty then d
        else ⟨d.sink_name, d.description, d.device_type, true, d.is_available⟩) := by
  simp [refresh_state]

-- ---------------------------------------------------------------------------
-- C1: lemmas about the module scans
-- ---------------------------------------------------------------------------

theorem findCombineFor_mem (v : String) (l : List ModuleRec) (p : Nat × List String)
    (h : findCombineFor v l = some p) : ModuleRec.combineSink p.1 v p.2 ∈ l := by
  induction l with
  | nil => exact absurd h (by simp [findCombineFor])
  | cons m rest ih =>
    cases m with
    | combineSink i n sl =>
      by_cases hn : n = v
      · subst hn
        rw [findCombineFor, if_pos rfl] at h
        cases Option.some.inj h
        exact List.mem_cons_self _ _
      · rw [findCombineFor, if_neg hn] at h
        exact List.mem_cons_of_mem _ (ih h)
    | nullSink i n => exact List.mem_cons_of_mem _ (ih h)
    | loopback i src snk lat => exact List.mem_cons_of_mem _ (ih h)
    | otherMod i n => exact List.mem_cons_of_mem _ (ih h)

theorem findCombineFor_none_of_no_ours (v : String) (l : List ModuleRec)
    (h : ∀ m ∈ l, isOursB v m = false) : findCombineFor v l = none := by
  induction l with
  | nil => rfl
  | cons m rest ih =>
    have hrest := ih (fun m hm => h m (List.mem_cons_of_mem _ hm))
    cases m with
    | combineSink i n sl =>
      have hn : ¬n = v := by
        have := h _ (List.mem_cons_self _ _)
        simp [isOursB, moduleSinkName] at this
        exact this
      rw [findCombineFor, if_neg hn]
      exact hrest
    | nullSink i n => exact hrest
    | loopback i src snk lat => exact hrest
    | otherMod i n => exact hrest

theorem findCombineFor_append_none (v : String) (l l' : List ModuleRec)
    (h : findCombineFor v l = none) :
    findCombineFor v (l ++ l') = findCombineFor v l' := by
  induction l with
  | nil => rfl
  | cons m rest ih =>
    cases m with
    | combineSink i n sl =>
      by_cases hn : n = v
      · subst hn; rw [findCombineFor, if_pos rfl] at h; exact absurd h (by simp)
      · rw [findCombineFor, if_neg hn] at h
        show findCombineFor v (ModuleRec.combineSink i n sl :: (rest ++ l')) = _
        rw [findCombineFor, if_neg hn]
        exact ih h
    | nullSink i n => exact ih h
    | loopback i src snk lat => exact ih h
    | otherMod i n => exact ih h

theorem findCombineFor_append_ours (v : String) (l : List ModuleRec) (i : Nat)
    (ds : List String) (h : ∀ m ∈ l, isOursB v m = false) :
    findCombineFor v (l ++ [ModuleRec.combineSink i v ds]) = some (i, ds) := by
  rw [findCombineFor_append_none v l _ (findCombineFor_none_of_no_ours v l h)]
  show findCombineFor v [ModuleRec.combineSink i v ds] = some (i, ds)
  rw [findCombineFor, if_pos rfl]

theorem findNullFor_append_of_isSome (v : String) (l l' : List ModuleRec)
    (h : (findNullFor v l).isSome = true) :
    findNullFor v (l ++ l') = findNullFor v l := by
  induction l with
  | nil => exact absurd h (by simp [findNullFor])
  | cons m rest ih =>
    cases m with
    | combineSink i n sl => exact ih h
    | nullSink i n =>
      by_cases hn : n = v
      · show findNullFor v (ModuleRec.nullSink i n :: (rest ++ l')) = _
        rw [findNullFor, if_pos hn, findNullFor, if_pos hn]
      · rw [findNullFor, if_neg hn] at h
        show findNullFor v (ModuleRec.nullSink i n :: (rest ++ l')) = _
        rw [findNullFor, if_neg hn, findNullFor, if_neg hn]
        exact ih h
    | loopback i src snk lat => exact ih h
    | otherMod i n => exact ih h

theorem findNullFor_append_null (v : String) (l : List ModuleRec) (i : Nat) :
    (findNullFor v (l ++ [ModuleRec.nullSink i v])).isSome = true := by
  induction l with
  | nil => simp [findNullFor]
  | cons m rest ih =>
    cases m with
    | combineSink j n sl => exact ih
    | nullSink j n =>
      by_cases hn : n = v
      · show (findNullFor v (ModuleRec.nullSink j n :: _)).isSome = true
        rw [findNullFor, if_pos hn]
        rfl
      · show (findNullFor v (ModuleRec.nullSink j n :: _)).isSome = true
        rw [findNullFor, if_neg hn]
        exact ih
    | loopback j src snk lat => exact ih
    | otherMod j n => exact ih

theorem mem_ghostIds (v : String) (l : List ModuleRec) (i : Nat)
    (h : i ∈ ghostIdsOf v l) : ∃ g ∈ l, isOursB v g = true ∧ midOf g = i := by
  unfold ghostIdsOf at h
  rw [List.mem_filterMap] at h
  obtain ⟨g, hg, hsome⟩ := h
  by_cases ho : isOursB v g = true
  · rw [if_pos ho] at hsome
    exact ⟨g, hg, ho, Option.some.inj hsome⟩
  · rw [if_neg ho] at hsome
    exact absurd hsome (by simp)

theorem ghostIds_of_ours (v : String) (l : List ModuleRec) (m : ModuleRec)
    (hm : m ∈ l) (ho : isOursB v m = true) : midOf m ∈ ghostIdsOf v l := by
  unfold ghostIdsOf
  rw [List.mem_filterMap]
  exact ⟨m, hm, by rw [if_pos ho]⟩

theorem listSetEq_refl (a : List String) : listSetEq a a = true := by
  unfold listSetEq
  rw [Bool.and_eq_true]
  constructor <;> (rw [List.all_eq_true]; intro x hx; exact decide_eq_true hx)

-- ---------------------------------------------------------------------------
-- C1: well-formedness is preserved by command application
-- ---------------------------------------------------------------------------

theorem wf_load_aux (w : World) (m : ModuleRec) (h : WFWorld w)
    (hmid : midOf m = w.nextId) :
    ((w.modules ++ [m]).map midOf).Nodup ∧
      ∀ m' ∈ w.modules ++ [m], midOf m' < w.nextId + 1 := by
  constructor
  · rw [List.map_append]
    apply List.Nodup.append h.1 (by simp)
    intro a ha hb
    rw [List.mem_map] at ha
    obtain ⟨m', hm', rfl⟩ := ha
    simp at hb
    have hlt := h.2 m' hm'
    rw [hb, hmid] at hlt
    exact absurd hlt (lt_irrefl _)
  · intro m' hm'
    rw [List.mem_append] at hm'
    cases hm' with
    | inl hl => exact Nat.lt_succ_of_lt (h.2 m' hl)
    | inr hr => simp at hr; rw [hr, hmid]; exact Nat.lt_succ_self _

theorem wf_applyCmd (c : Cmd) (w : World) (h : WFWorld w) : WFWorld (applyCmd c w) := by
  cases c with
  | loadCombineSink n slaves => exact wf_load_aux w _ h rfl
  | loadNullSink n => exact wf_load_aux w _ h rfl
  | loadLoopback src snk lat => exact wf_load_aux w _ h rfl
  | unloadModule i =>
    constructor
    · exact List.Nodup.sublist (List.Sublist.map midOf (List.filter_sublist _)) h.1
    · intro m hm
      exact h.2 m (List.mem_of_mem_filter hm)
  | setDefaultSink n => exact h
  | setSinkMute n b => exact h
  | setSinkVolume n v => exact h
  | moveSinkInput iid t => exact h
  | setPortLatencyOffset a b c => exact h

-- ---------------------------------------------------------------------------
-- C1: unload folds
-- ---------------------------------------------------------------------------

theorem emit_unload_modules (i : Nat) (e : Exec) :
    (emit (Cmd.unloadModule i) e).world.modules =
      e.world.modules.filter (fun m => decide (midOf m ≠ i)) := rfl

theorem unload_fold_wf (ids : List Nat) :
    ∀ e : Exec, WFWorld e.world →
      WFWorld ((ids.foldl (fun e i => emit (Cmd.unloadModule i) e) e).world) := by
  induction ids with
  | nil => intro e hwf; exact hwf
  | cons i ids ih =>
    intro e hwf
    rw [List.foldl_cons]
    exact ih _ (wf_applyCmd (Cmd.unloadModule i) e.world hwf)

theorem unload_fold_detect (v : String) (ids : List Nat) :
    ∀ (e : Exec), (∀ i ∈ ids, unloadSafe v e.world i) →
      detectDevices v ((ids.foldl (fun e i => emit (Cmd.unloadModule i) e) e).world) =
        detectDevices v e.world := by
  induction ids with
  | nil => intro e _; rfl
  | cons i ids ih =>
    intro e h
    rw [List.foldl_cons]
    rw [ih (emit (Cmd.unloadModule i) e) ?rest]
    · exact detect_unload v i e.world (h i (List.mem_cons_self _ _))
    case rest =>
      intro j hj m hm hmid n hn
      have hm' : m ∈ e.world.modules :=
        List.mem_of_mem_filter hm
      exact h j (List.mem_cons_of_mem _ hj) m hm' hmid n hn

theorem unload_fold_no_ours (v : String) (ids : List Nat) :
    ∀ (e : Exec), (∀ m ∈ e.world.modules, isOursB v m = true → midOf m ∈ ids) →
      ∀ m ∈ ((ids.foldl (fun e i => emit (Cmd.unloadModule i) e) e).world.modules),
        isOursB v m = false := by
  induction ids with
  | nil =>
    intro e h m hm
    cases ho : isOursB v m with
    | false => rfl
    | true => exact absurd (h m hm ho) (by simp)
  | cons i ids ih =>
    intro e h m hm
    rw [List.foldl_cons] at hm
    apply ih (emit (Cmd.unloadModule i) e) ?hyp m hm
    case hyp =>
      intro m' hm' ho
      rw [emit_unload_modules] at hm'
      obtain ⟨hmem, hne⟩ := List.mem_filter.1 hm'
      have hne' : midOf m' ≠ i := of_decide_eq_true hne
      have := h m' hmem ho
      rw [List.mem_cons] at this
      cases this with
      | inl heq => exact absurd heq hne'
      | inr hin => exact hin

-- ---------------------------------------------------------------------------
-- C1: world preservation through the non-structural stages
-- ---------------------------------------------------------------------------

theorem emitMoveAll_world (ids : List String) (t : String) :
    ∀ e : Exec,
      (emitMoveAll ids t e).world.modules = e.world.modules ∧
      (emitMoveAll ids t e).world.sinks = e.world.sinks := by
  induction ids with
  | nil => intro e; exact ⟨rfl, rfl⟩
  | cons i ids ih =>
    intro e
    unfold emitMoveAll at ih ⊢
    rw [List.foldl_cons]
    exact ih _

theorem move_streams_world (v : String) (e : Exec) :
    (move_streams_to_master v e).world.modules = e.world.modules ∧
    (move_streams_to_master v e).world.sinks = e.world.sinks := by
  unfold move_streams_to_master
  exact emitMoveAll_world _ _ _

theorem restore_eq_world (e : Exec) :
    (restore_eq_routing e).world.modules = e.world.modules ∧
    (restore_eq_routing e).world.sinks = e.world.sinks := by
  unfold restore_eq_routing
  split
  · exact emitMoveAll_world _ _ _
  · exact ⟨rfl, rfl⟩

theorem mute_fold_world (v : String) (names : List String) :
    ∀ e : Exec,
      ((names.foldl (fun e n => emit (Cmd.setSinkMute n false) e) e).world.modules =
        e.world.modules) ∧
      detectDevices v
        ((names.foldl (fun e n => emit (Cmd.setSinkMute n false) e) e).world) =
        detectDevices v e.world := by
  induction names with
  | nil => intro e; exact ⟨rfl, rfl⟩
  | cons n names ih =>
    intro e
    rw [List.foldl_cons]
    refine ⟨(ih _).1, ?_⟩
    rw [(ih _).2]
    exact detect_mute v n false e.world

theorem detect_sinks_eq (v : String) (w w' : World) (h : w'.sinks = w.sinks) :
    detectDevices v w' = detectDevices v w := by
  unfold detectDevices
  rw [h]

theorem pwConvergedB_eq_of (v : String) (w w' : World)
    (hm : w'.modules = w.modules) (hd : detectDevices v w' = detectDevices v w) :
    pwConvergedB v w' = pwConvergedB v w := by
  unfold pwConvergedB deviceSinkNames
  rw [hm, hd]

theorem unloadSafe_of_ours (v : String) (w : World) (hwf : WFWorld w) (g : ModuleRec)
    (hg : g ∈ w.modules) (ho : isOursB v g = true) : unloadSafe v w (midOf g) := by
  intro m hm hmid n hn
  have hmg : m = g := List.inj_on_of_nodup_map hwf.1 hm hg hmid
  subst hmg
  unfold isOursB at ho
  rw [hn] at ho
  exact Option.some.inj (of_decide_eq_true ho)

theorem unloadSafe_ghosts (v : String) (w : World) (hwf : WFWorld w) :
    ∀ i ∈ ghostIdsOf v w.modules, unloadSafe v w i := by
  intro i hi
  obtain ⟨g, hg, ho, hmid⟩ := mem_ghostIds v _ i hi
  exact hmid ▸ unloadSafe_of_ours v w hwf g hg ho

-- ---------------------------------------------------------------------------
-- C1: the ghost-cleanup stage
-- ---------------------------------------------------------------------------

theorem cleanup_ghost_detect (v : String) (e : Exec) (hwf : WFWorld e.world) :
    detectDevices v (cleanup_ghost_modules v e).world = detectDevices v e.world := by
  unfold cleanup_ghost_modules
  exact unload_fold_detect v _ e (unloadSafe_ghosts v e.world hwf)

theorem cleanup_ghost_no_ours (v : String) (e : Exec) :
    ∀ m ∈ (cleanup_ghost_modules v e).world.modules, isOursB v m = false := by
  unfold cleanup_ghost_modules
  exact unload_fold_no_ours v _ e (fun m hm ho => ghostIds_of_ours v _ m hm ho)

-- ---------------------------------------------------------------------------
-- C1: the PipeWire reconciliation from a converged state
-- ---------------------------------------------------------------------------

theorem setup_pw_converged (v : String) (w : World) (hc : pwConvergedB v w = true) :
    (setup_combine_sink_locked v (Exec.init w)).1.1 = true ∧
    (setup_combine_sink_locked v (Exec.init w)).2.2.trace = [Cmd.setSinkMute v false] ∧
    pwConvergedB v (setup_combine_sink_locked v (Exec.init w)).2.2.world = true := by
  obtain ⟨p, hf, hne, hseq⟩ : ∃ p, findCombineFor v w.modules = some p ∧
      (deviceSinkNames v w).isEmpty = false ∧ listSetEq p.2 (deviceSinkNames v w) = true := by
    unfold pwConvergedB at hc
    cases hfx : findCombineFor v w.modules with
    | none => rw [hfx] at hc; exact absurd hc (by simp)
    | some p =>
      rw [hfx] at hc
      rw [Bool.and_eq_true] at hc
      exact ⟨p, rfl, by simpa using hc.1, hc.2⟩
  have hds := refresh_device_sinks true v w
  have hex := (refresh_pw_combine v w).1
  have hslaves : get_combine_slaves v w = p.2 := by unfold get_combine_slaves; rw [hf]
  have hcond : ((refresh_state true v w).combine_sink_exists &&
      listSetEq (get_combine_slaves v w) (deviceSinkNames v w)) = true := by
    rw [hex, hf, hslaves, hseq]
    rfl
  have hpres : pwConvergedB v (applyCmd (Cmd.setSinkMute v false) w) = pwConvergedB v w :=
    pwConvergedB_eq_of v w _ rfl (detect_mute v v false w)
  simp only [setup_combine_sink_locked, Exec.init]
  rw [hds, if_neg (by simp [hne]), if_pos hcond]
  refine ⟨rfl, rfl, ?_⟩
  show pwConvergedB v (applyCmd (Cmd.setSinkMute v false) w) = true
  rw [hpres]
  exact hc

theorem dsn_eq (v : String) (w w' : World)
    (h : detectDevices v w' = detectDevices v w) :
    deviceSinkNames v w' = deviceSinkNames v w := by
  unfold deviceSinkNames
  rw [h]

theorem pwConvergedB_intro (v : String) (w : World) (i : Nat) (ds : List String)
    (hf : findCombineFor v w.modules = some (i, ds))
    (hne : (deviceSinkNames v w).isEmpty = false)
    (hseq : listSetEq ds (deviceSinkNames v w) = true) :
    pwConvergedB v w = true := by
  unfold pwConvergedB
  simp only [hf]
  rw [hne, hseq]
  rfl

theorem pw_post_stages (v : String) (names : List String) (e : Exec) :
    pwConvergedB v (move_streams_to_master v (restore_eq_routing
      (names.foldl (fun e n => emit (Cmd.setSinkMute n false) e)
        (emit (Cmd.setSinkMute v false) (emit (Cmd.setDefaultSink v) e))))).world =
    pwConvergedB v e.world := by
  rw [pwConvergedB_eq_of v _ _ (move_streams_world v _).1
    (detect_sinks_eq v _ _ (move_streams_world v _).2)]
  rw [pwConvergedB_eq_of v _ _ (restore_eq_world _).1
    (detect_sinks_eq v _ _ (restore_eq_world _).2)]
  rw [pwConvergedB_eq_of v _ _ (mute_fold_world v names _).1 (mute_fold_world v names _).2]
  show pwConvergedB v
    (applyCmd (Cmd.setSinkMute v false) (applyCmd (Cmd.setDefaultSink v) e.world)) =
    pwConvergedB v e.world
  rw [pwConvergedB_eq_of v (applyCmd (Cmd.setDefaultSink v) e.world)
    (applyCmd (Cmd.setSinkMute v false) (applyCmd (Cmd.setDefaultSink v) e.world)) rfl
    (detect_mute v v false _)]
  exact pwConvergedB_eq_of v e.world (applyCmd (Cmd.setDefaultSink v) e.world) rfl rfl

theorem pw_load_converged (v : String) (e : Exec) (w : World)
    (hwf1 : WFWorld e.world)
    (hdet1 : detectDevices v e.world = detectDevices v w)
    (hne : (deviceSinkNames v w).isEmpty = false) :
    pwConvergedB v (emit (Cmd.loadCombineSink v (deviceSinkNames v w))
      (cleanup_ghost_modules v e)).world = true := by
  have hdetG : detectDevices v (cleanup_ghost_modules v e).world = detectDevices v w := by
    rw [cleanup_ghost_detect v e hwf1, hdet1]
  have hnoours := cleanup_ghost_no_ours v e
  have hmod : (emit (Cmd.loadCombineSink v (deviceSinkNames v w))
      (cleanup_ghost_modules v e)).world.modules =
      (cleanup_ghost_modules v e).world.modules ++
        [ModuleRec.combineSink (cleanup_ghost_modules v e).world.nextId v
          (deviceSinkNames v w)] := rfl
  have hdetL : detectDevices v (emit (Cmd.loadCombineSink v (deviceSinkNames v w))
      (cleanup_ghost_modules v e)).world =
      detectDevices v (cleanup_ghost_modules v e).world :=
    detect_load_combine v _ (cleanup_ghost_modules v e).world
  have hnames : deviceSinkNames v (emit (Cmd.loadCombineSink v (deviceSinkNames v w))
      (cleanup_ghost_modules v e)).world = deviceSinkNames v w :=
    dsn_eq v _ _ (by rw [hdetL, hdetG])
  apply pwConvergedB_intro v _ (cleanup_ghost_modules v e).world.nextId (deviceSinkNames v w)
  · rw [hmod]
    exact findCombineFor_append_ours v _ _ _ hnoours
  · rw [hnames]
    exact hne
  · rw [hnames]
    exact listSetEq_refl _

theorem setup_pw_success_converged (v : String) (w : World) (hwf : WFWorld w)
    (hok : (setup_combine_sink_locked v (Exec.init w)).1.1 = true) :
    pwConvergedB v (setup_combine_sink_locked v (Exec.init w)).2.2.world = true := by
  have hds := refresh_device_sinks true v w
  simp only [setup_combine_sink_locked, Exec.init] at hok ⊢
  rw [hds] at hok ⊢
  by_cases hcempty : (deviceSinkNames v w).isEmpty = true
  · rw [if_pos hcempty] at hok
    exact absurd hok (by simp)
  · have hne : (deviceSinkNames v w).isEmpty = false := by
      revert hcempty
      cases (deviceSinkNames v w).isEmpty <;> simp
    rw [if_neg hcempty] at hok ⊢
    by_cases hcond : ((refresh_state true v w).combine_sink_exists &&
        listSetEq (get_combine_slaves v w) (deviceSinkNames v w)) = true
    · rw [if_pos hcond]
      rw [Bool.and_eq_true] at hcond
      obtain ⟨hex', hseq'⟩ := hcond
      rw [(refresh_pw_combine v w).1] at hex'
      obtain ⟨p, hf⟩ := Option.isSome_iff_exists.1 hex'
      have hslaves : get_combine_slaves v w = p.2 := by
        unfold get_combine_slaves
        rw [hf]
      rw [hslaves] at hseq'
      have hcw : pwConvergedB v w = true :=
        pwConvergedB_intro v w p.1 p.2 (by rw [hf]) hne hseq'
      show pwConvergedB v (applyCmd (Cmd.setSinkMute v false) w) = true
      rw [pwConvergedB_eq_of v w (applyCmd (Cmd.setSinkMute v false) w) rfl
        (detect_mute v v false w)]
      exact hcw
    · rw [if_neg hcond]
      show pwConvergedB v (move_streams_to_master v (restore_eq_routing
        (List.foldl (fun e n => emit (Cmd.setSinkMute n false) e)
          (emit (Cmd.setSinkMute v false) (emit (Cmd.setDefaultSink v)
            (emit (Cmd.loadCombineSink v (deviceSinkNames v w))
              (cleanup_ghost_modules v
                (if (refresh_state true v w).combine_sink_exists = true then
                  match (refresh_state true v w).combine_sink_module_id with
                  | some i => emit (Cmd.unloadModule i) ⟨w, []⟩
                  | none => (⟨w, []⟩ : Exec)
                else (⟨w, []⟩ : Exec))))))
          (deviceSinkNames v w)))).world = true
      rw [pw_post_stages]
      cases hfind : findCombineFor v w.modules with
      | none =>
        have hex2 : ¬(refresh_state true v w).combine_sink_exists = true := by
          rw [(refresh_pw_combine v w).1, hfind]
          simp
        rw [if_neg hex2]
        exact pw_load_converged v ⟨w, []⟩ w hwf rfl hne
      | some p =>
        have hex2 : (refresh_state true v w).combine_sink_exists = true := by
          rw [(refresh_pw_combine v w).1, hfind]
          rfl
        rw [if_pos hex2]
        have hmid : (refresh_state true v w).combine_sink_module_id = some p.1 := by
          rw [(refresh_pw_combine v w).2, hfind]
          rfl
        rw [hmid]
        have hmem := findCombineFor_mem v w.modules p hfind
        have hours : isOursB v (ModuleRec.combineSink p.1 v p.2) = true := by
          unfold isOursB moduleSinkName
          exact decide_eq_true rfl
        have hsafe : unloadSafe v w p.1 :=
          unloadSafe_of_ours v w hwf (ModuleRec.combineSink p.1 v p.2) hmem hours
        apply pw_load_converged v (emit (Cmd.unloadModule p.1) ⟨w, []⟩) w
        · exact wf_applyCmd (Cmd.unloadModule p.1) w hwf
        · exact detect_unload v p.1 w hsafe
        · exact hne

-- ---------------------------------------------------------------------------
-- C1: traces of the non-structural stages carry no load/unload
-- ---------------------------------------------------------------------------

theorem filter_loads_emit (c : Cmd) (e : Exec) (hc : isLoadOrUnload c = false) :
    (emit c e).trace.filter isLoadOrUnload = e.trace.filter isLoadOrUnload := by
  rw [trace_emit, List.filter_append]
  simp [hc]

theorem filter_loads_moveAll (ids : List String) (t : String) :
    ∀ e : Exec, (emitMoveAll ids t e).trace.filter isLoadOrUnload =
      e.trace.filter isLoadOrUnload := by
  induction ids with
  | nil => intro e; rfl
  | cons i ids ih =>
    intro e
    unfold emitMoveAll at ih ⊢
    rw [List.foldl_cons, ih]
    exact filter_loads_emit _ _ rfl

theorem filter_loads_restore (e : Exec) :
    (restore_eq_routing e).trace.filter isLoadOrUnload =
      e.trace.filter isLoadOrUnload := by
  unfold restore_eq_routing
  split
  · rw [filter_loads_moveAll]
    exact filter_loads_emit _ _ rfl
  · rfl

theorem filter_loads_move_streams (v : String) (e : Exec) :
    (move_streams_to_master v e).trace.filter isLoadOrUnload =
      e.trace.filter isLoadOrUnload := by
  unfold move_streams_to_master
  exact filter_loads_moveAll _ _ _

-- ---------------------------------------------------------------------------
-- C1: the PulseAudio loopback-creation fold
-- ---------------------------------------------------------------------------

theorem isEmpty_append_singleton {α : Type} (l : List α) (y : α) :
    (l ++ [y]).isEmpty = false := by
  cases l <;> rfl

theorem detect_load_loopback (u : String) (src snk : String) (lat : Int) (w : World) :
    detectDevices u (applyCmd (Cmd.loadLoopback src snk lat) w) = detectDevices u w := rfl

theorem loopbackStep_world (v : String) (cfg : Config) (acc : List String × Exec)
    (d : OutputDevice) :
    (∃ ext, (loopbackStep v cfg acc d).2.world.modules = acc.2.world.modules ++ ext) ∧
    (∀ u : String, detectDevices u (loopbackStep v cfg acc d).2.world =
      detectDevices u acc.2.world) := by
  unfold loopbackStep
  split
  · exact ⟨⟨[], by simp⟩, fun u => rfl⟩
  · constructor
    · exact ⟨[ModuleRec.loopback acc.2.world.nextId (v ++ (".monitor")) d.sink_name
        (get_device_delay cfg d.sink_name)], rfl⟩
    · intro u
      show detectDevices u (applyCmd (Cmd.loadLoopback (v ++ (".monitor")) d.sink_name
        (get_device_delay cfg d.sink_name)) (applyCmd (Cmd.setSinkVolume d.sink_name 100)
          (applyCmd (Cmd.setSinkMute d.sink_name false) acc.2.world))) = _
      rw [detect_load_loopback, detect_vol, detect_mute]

theorem loopback_fold_detect (v u : String) (cfg : Config) :
    ∀ (l : List OutputDevice) (acc : List String × Exec),
      detectDevices u ((l.foldl (loopbackStep v cfg) acc).2.world) =
        detectDevices u acc.2.world := by
  intro l
  induction l with
  | nil => intro acc; rfl
  | cons d rest ih =>
    intro acc
    rw [List.foldl_cons, ih]
    exact (loopbackStep_world v cfg acc d).2 u

theorem loopback_fold_extends (v : String) (cfg : Config) :
    ∀ (l : List OutputDevice) (acc : List String × Exec),
      ∃ ext, ((l.foldl (loopbackStep v cfg) acc).2.world.modules) =
        acc.2.world.modules ++ ext := by
  intro l
  induction l with
  | nil => intro acc; exact ⟨[], by simp⟩
  | cons d rest ih =>
    intro acc
    rw [List.foldl_cons]
    obtain ⟨x1, h1⟩ := (loopbackStep_world v cfg acc d).1
    obtain ⟨x2, h2⟩ := ih (loopbackStep v cfg acc d)
    exact ⟨x1 ++ x2, by rw [h2, h1, List.append_assoc]⟩

theorem findAllLoopbacks_congr (v s : String) (w w' : World)
    (h : w'.modules = w.modules) : findAllLoopbacks v s w' = findAllLoopbacks v s w := by
  unfold findAllLoopbacks
  rw [h]

theorem isEmpty_append_left {α : Type} (l l' : List α) (h : l.isEmpty = false) :
    (l ++ l').isEmpty = false := by
  cases l with
  | nil => exact absurd h (by simp)
  | cons a as => rfl

theorem loopbacks_nonempty_mono (v s : String) (w w' : World)
    (h : ∃ ext, w'.modules = w.modules ++ ext)
    (hne : (findAllLoopbacks v s w).isEmpty = false) :
    (findAllLoopbacks v s w').isEmpty = false := by
  obtain ⟨ext, hext⟩ := h
  have hsplit : findAllLoopbacks v s w' = findAllLoopbacks v s w ++
      ext.filterMap (fun m => match m with
        | ModuleRec.loopback i src snk lat =>
          if snk = s && src = v ++ (".monitor") then some (i, lat) else none
        | _ => none) := by
    unfold findAllLoopbacks
    rw [hext, List.filterMap_append]
  rw [hsplit]
  exact isEmpty_append_left _ _ hne

theorem loopback_fold_skip (v : String) (cfg : Config) :
    ∀ (l : List OutputDevice), (∀ d ∈ l, d.is_synced = true) →
      ∀ acc : List String × Exec, l.foldl (loopbackStep v cfg) acc = acc := by
  intro l
  induction l with
  | nil => intro h acc; rfl
  | cons d rest ih =>
    intro h acc
    rw [List.foldl_cons]
    have hd := h d (List.mem_cons_self _ _)
    have hstep : loopbackStep v cfg acc d = acc := by
      unfold loopbackStep
      rw [if_pos (by rw [hd]; simp)]
    rw [hstep]
    exact ih (fun d hd => h d (List.mem_cons_of_mem _ hd)) acc

theorem loopback_fold_covers (v : String) (cfg : Config) :
    ∀ (l : List OutputDevice) (acc : List String × Exec),
      (∀ d ∈ l, d.is_synced = true →
        (findAllLoopbacks v d.sink_name acc.2.world).isEmpty = false) →
      ∀ d ∈ l, d.is_available = true →
        (findAllLoopbacks v d.sink_name
          ((l.foldl (loopbackStep v cfg) acc).2.world)).isEmpty = false := by
  intro l
  induction l with
  | nil => intro acc h d hd; exact absurd hd (List.not_mem_nil d)
  | cons d0 rest ih =>
    intro acc h d hd hav
    rw [List.foldl_cons]
    rw [List.mem_cons] at hd
    cases hd with
    | inl heq =>
      subst heq
      apply loopbacks_nonempty_mono v d.sink_name _ _
        (loopback_fold_extends v cfg rest _)
      by_cases hs : d.is_synced = true
      · have hskip : loopbackStep v cfg acc d = acc := by
          unfold loopbackStep
          rw [if_pos (by rw [hs]; simp)]
        rw [hskip]
        exact h d (List.mem_cons_self _ _) hs
      · have hs' : d.is_synced = false := by
          revert hs
          cases d.is_synced <;> simp
        have hcreate : (loopbackStep v cfg acc d).2.world.modules =
            acc.2.world.modules ++ [ModuleRec.loopback acc.2.world.nextId
              (v ++ (".monitor")) d.sink_name (get_device_delay cfg d.sink_name)] := by
          unfold loopbackStep
          rw [if_neg (by rw [hs', hav]; simp)]
          rfl
        unfold findAllLoopbacks
        rw [hcreate, List.filterMap_append]
        have hnew : List.filterMap (fun m => match m with
            | ModuleRec.loopback i src snk lat =>
              if snk = d.sink_name && src = v ++ (".monitor") then some (i, lat) else none
            | _ => none) [ModuleRec.loopback acc.2.world.nextId (v ++ (".monitor"))
              d.sink_name (get_device_delay cfg d.sink_name)] =
            [(acc.2.world.nextId, get_device_delay cfg d.sink_name)] := by
          simp
        rw [hnew]
        exact isEmpty_append_singleton _ _
    | inr hrest =>
      apply ih (loopbackStep v cfg acc d0) ?hyp d hrest hav
      case hyp =>
        intro d' hd' hs'
        exact loopbacks_nonempty_mono v d'.sink_name _ _
          (loopbackStep_world v cfg acc d0).1
          (h d' (List.mem_cons_of_mem _ hd') hs')

-- ---------------------------------------------------------------------------
-- C1: the PulseAudio reconciliation pipeline
-- ---------------------------------------------------------------------------

theorem pa_chain_facts (u v : String) (c : Prop) [inst : Decidable c] (e1 : Exec) :
    ((emit (Cmd.setSinkMute v false) (emit (Cmd.setSinkVolume v 100)
      (if c then emit (Cmd.setDefaultSink v) e1 else e1))).world.modules =
        e1.world.modules) ∧
    (detectDevices u (emit (Cmd.setSinkMute v false) (emit (Cmd.setSinkVolume v 100)
      (if c then emit (Cmd.setDefaultSink v) e1 else e1))).world =
        detectDevices u e1.world) ∧
    ((emit (Cmd.setSinkMute v false) (emit (Cmd.setSinkVolume v 100)
      (if c then emit (Cmd.setDefaultSink v) e1 else e1))).trace.filter isLoadOrUnload =
        e1.trace.filter isLoadOrUnload) := by
  split
  · refine ⟨rfl, ?_, ?_⟩
    · show detectDevices u (applyCmd (Cmd.setSinkMute v false)
        (applyCmd (Cmd.setSinkVolume v 100) (applyCmd (Cmd.setDefaultSink v) e1.world))) = _
      rw [detect_mute, detect_vol]
      rfl
    · rw [filter_loads_emit (Cmd.setSinkMute v false) _ rfl,
        filter_loads_emit (Cmd.setSinkVolume v 100) _ rfl,
        filter_loads_emit (Cmd.setDefaultSink v) _ rfl]
  · refine ⟨rfl, ?_, ?_⟩
    · show detectDevices u (applyCmd (Cmd.setSinkMute v false)
        (applyCmd (Cmd.setSinkVolume v 100) e1.world)) = _
      rw [detect_mute, detect_vol]
    · rw [filter_loads_emit (Cmd.setSinkMute v false) _ rfl,
        filter_loads_emit (Cmd.setSinkVolume v 100) _ rfl]

theorem ite_fst_true (c : Prop) [inst : Decidable c] (s1 s2 : String)
    (r1 r2 : AudioState × Exec) :
    ((if c then ((true, s1), r1) else ((true, s2), r2)) :
      (Bool × String) × AudioState × Exec).1.1 = true := by
  split <;> rfl

theorem setup_pa_ok (v : String) (cfg : Config) (e : Exec) :
    (setup_loopback_locked v cfg e).1.1 = true := by
  simp only [setup_loopback_locked]
  exact ite_fst_true _ _ _ _ _

theorem pa_postfold_ready (v : String) (cfg : Config) (e3 : Exec) (msgs : List String)
    (hnull : (findNullFor v e3.world.modules).isSome = true) :
    paReadyB v (move_streams_to_master v (restore_eq_routing
      (List.foldl (loopbackStep v cfg) (msgs, e3)
        (refresh_state false v e3.world).devices).2)).world = true := by
  have hm1 := (move_streams_world v (restore_eq_routing
    (List.foldl (loopbackStep v cfg) (msgs, e3)
      (refresh_state false v e3.world).devices).2)).1
  have hm2 := (restore_eq_world
    (List.foldl (loopbackStep v cfg) (msgs, e3)
      (refresh_state false v e3.world).devices).2).1
  have hmods : (move_streams_to_master v (restore_eq_routing
      (List.foldl (loopbackStep v cfg) (msgs, e3)
        (refresh_state false v e3.world).devices).2)).world.modules =
      (List.foldl (loopbackStep v cfg) (msgs, e3)
        (refresh_state false v e3.world).devices).2.world.modules := by
    rw [hm1, hm2]
  have hdetF : detectDevices v (move_streams_to_master v (restore_eq_routing
      (List.foldl (loopbackStep v cfg) (msgs, e3)
        (refresh_state false v e3.world).devices).2)).world =
      detectDevices v e3.world := by
    rw [detect_sinks_eq v _ _ (move_streams_world v _).2,
      detect_sinks_eq v _ _ (restore_eq_world _).2]
    exact loopback_fold_detect v v cfg (refresh_state false v e3.world).devices (msgs, e3)
  have hnull2 : (findNullFor v (move_streams_to_master v (restore_eq_routing
      (List.foldl (loopbackStep v cfg) (msgs, e3)
        (refresh_state false v e3.world).devices).2)).world.modules).isSome = true := by
    rw [hmods]
    obtain ⟨ext, hx⟩ :=
      loopback_fold_extends v cfg (refresh_state false v e3.world).devices (msgs, e3)
    rw [hx, findNullFor_append_of_isSome v _ _ hnull]
    exact hnull
  have hcov : ∀ d ∈ detectDevices v e3.world,
      (findAllLoopbacks v d.sink_name
        (List.foldl (loopbackStep v cfg) (msgs, e3)
          (refresh_state false v e3.world).devices).2.world).isEmpty = false := by
    intro d hd
    have hdd := detect_mem v e3.world d hd
    have hmem : (if (findAllLoopbacks v d.sink_name e3.world).isEmpty then d
        else ⟨d.sink_name, d.description, d.device_type, true, d.is_available⟩) ∈
        (refresh_state false v e3.world).devices := by
      rw [refresh_pa_devices]
      exact List.mem_map_of_mem _ hd
    have hhyp : ∀ d' ∈ (refresh_state false v e3.world).devices, d'.is_synced = true →
        (findAllLoopbacks v d'.sink_name (msgs, e3).2.world).isEmpty = false := by
      intro d' hd' hs'
      rw [refresh_pa_devices, List.mem_map] at hd'
      obtain ⟨dd, hdd2, rfl⟩ := hd'
      by_cases hie : (findAllLoopbacks v dd.sink_name e3.world).isEmpty = true
      · rw [if_pos hie] at hs'
        rw [(detect_mem v e3.world dd hdd2).2] at hs'
        exact absurd hs' (by simp)
      · have hie' : (findAllLoopbacks v dd.sink_name e3.world).isEmpty = false := by
          revert hie
          cases (findAllLoopbacks v dd.sink_name e3.world).isEmpty <;> simp
        rw [if_neg hie]
        exact hie'
    have hcov2 := loopback_fold_covers v cfg (refresh_state false v e3.world).devices
      (msgs, e3) hhyp
    have havail : (if (findAllLoopbacks v d.sink_name e3.world).isEmpty then d
        else ⟨d.sink_name, d.description, d.device_type, true,
          d.is_available⟩).is_available = true := by
      split
      · exact hdd.1
      · exact hdd.1
    have hres := hcov2 _ hmem havail
    have hsn : (if (findAllLoopbacks v d.sink_name e3.world).isEmpty then d
        else ⟨d.sink_name, d.description, d.device_type, true,
          d.is_available⟩).sink_name = d.sink_name := by
      split <;> rfl
    rw [hsn] at hres
    exact hres
  unfold paReadyB
  rw [Bool.and_eq_true]
  constructor
  · exact hnull2
  · rw [List.all_eq_true]
    intro d hd
    rw [hdetF] at hd
    have hc := hcov d hd
    have hW := findAllLoopbacks_congr v d.sink_name _ _ hmods
    rw [hW, hc]
    rfl

theorem setup_pa_ready_after (v : String) (cfg : Config) (w : World) :
    paReadyB v (setup_loopback_locked v cfg (Exec.init w)).2.2.world = true := by
  simp only [setup_loopback_locked, Exec.init]
  set E1 := (if (!(refresh_state false v w).combine_sink_exists) = true then
    emit (Cmd.loadNullSink v) (⟨w, []⟩ : Exec) else (⟨w, []⟩ : Exec)) with hE1
  set MS := (if (!(refresh_state false v w).combine_sink_exists) = true then
    (["Created virtual master sink"] : List String) else ([] : List String)) with hMS
  set ST2 := (if (!(refresh_state false v w).combine_sink_exists) = true then
    refresh_state false v E1.world else refresh_state false v w) with hST2
  set E3 := emit (Cmd.setSinkMute v false) (emit (Cmd.setSinkVolume v 100)
    (if ST2.default_sink ≠ some v then emit (Cmd.setDefaultSink v) E1 else E1)) with hE3
  have hnull : (findNullFor v E3.world.modules).isSome = true := by
    rw [hE3, (pa_chain_facts v v _ _).1, hE1]
    by_cases hcre : (!(refresh_state false v w).combine_sink_exists) = true
    · rw [if_pos hcre]
      exact findNullFor_append_null v w.modules w.nextId
    · rw [if_neg hcre]
      have hex : (refresh_state false v w).combine_sink_exists = true := by
        revert hcre
        cases (refresh_state false v w).combine_sink_exists <;> simp
      rw [refresh_pa_exists] at hex
      exact hex
  split
  · exact pa_postfold_ready v cfg E3 MS hnull
  · exact pa_postfold_ready v cfg E3 MS hnull

theorem setup_pa_no_loads (v : String) (cfg : Config) (w : World)
    (hr : paReadyB v w = true) :
    (setup_loopback_locked v cfg (Exec.init w)).2.2.trace.filter isLoadOrUnload = [] := by
  unfold paReadyB at hr
  rw [Bool.and_eq_true] at hr
  obtain ⟨hnullw, hallw⟩ := hr
  rw [List.all_eq_true] at hallw
  have hex : (refresh_state false v w).combine_sink_exists = true := by
    rw [refresh_pa_exists]
    exact hnullw
  have hcre : ¬((!(refresh_state false v w).combine_sink_exists) = true) := by
    rw [hex]
    simp
  have hchain := pa_chain_facts v v
    ((refresh_state false v w).default_sink ≠ some v) (⟨w, []⟩ : Exec)
  have hsync : ∀ d' ∈ (refresh_state false v (emit (Cmd.setSinkMute v false)
      (emit (Cmd.setSinkVolume v 100)
        (if (refresh_state false v w).default_sink ≠ some v then
          emit (Cmd.setDefaultSink v) (⟨w, []⟩ : Exec)
        else (⟨w, []⟩ : Exec)))).world).devices, d'.is_synced = true := by
    intro d' hd'
    rw [refresh_pa_devices, List.mem_map] at hd'
    obtain ⟨dd, hdd, rfl⟩ := hd'
    rw [hchain.2.1] at hdd
    have hddw : dd ∈ detectDevices v w := hdd
    have hloop : (findAllLoopbacks v dd.sink_name w).isEmpty = false := by
      have := hallw dd hddw
      revert this
      cases (findAllLoopbacks v dd.sink_name w).isEmpty <;> simp
    have hloop3 : (findAllLoopbacks v dd.sink_name (emit (Cmd.setSinkMute v false)
        (emit (Cmd.setSinkVolume v 100)
          (if (refresh_state false v w).default_sink ≠ some v then
            emit (Cmd.setDefaultSink v) (⟨w, []⟩ : Exec)
          else (⟨w, []⟩ : Exec)))).world).isEmpty = false := by
      rw [findAllLoopbacks_congr v dd.sink_name _ _ hchain.1]
      exact hloop
    rw [if_neg (by rw [hloop3]; simp)]
  have hskip := loopback_fold_skip v cfg _ hsync
  have h22 : (setup_loopback_locked v cfg (Exec.init w)).2.2 =
      move_streams_to_master v (restore_eq_routing (emit (Cmd.setSinkMute v false)
        (emit (Cmd.setSinkVolume v 100)
          (if (refresh_state false v w).default_sink ≠ some v then
            emit (Cmd.setDefaultSink v) (⟨w, []⟩ : Exec)
          else (⟨w, []⟩ : Exec))))) := by
    simp only [setup_loopback_locked, Exec.init]
    rw [if_neg hcre, if_neg hcre, if_neg hcre]
    rw [hskip ([], emit (Cmd.setSinkMute v false) (emit (Cmd.setSinkVolume v 100)
      (if (refresh_state false v w).default_sink ≠ some v then
        emit (Cmd.setDefaultSink v) (⟨w, []⟩ : Exec)
      else (⟨w, []⟩ : Exec))))]
    rfl
  rw [h22, filter_loads_move_streams, filter_loads_restore, hchain.2.2]
  rfl

-- ---------------------------------------------------------------------------
-- C1: the claim
-- ---------------------------------------------------------------------------

/-- C1 counterexample: from a fully converged PipeWire state, with no
external change between the calls, both `setup_sync` calls succeed but the
second call still issues one mutating external command — a
`set-sink-mute` on the virtual sink (src/audio_backend.py:417) — so "the
second call issues zero mutating external commands" is false. -/
theorem c1_counterexample :
    (setup_sync (Backend.init defaultConfig w_pw_converged) defaultConfig
      (Exec.init w_pw_converged)).1.1 = true ∧
    (setup_sync (Backend.init defaultConfig w_pw_converged) defaultConfig
      (Exec.init (setup_sync (Backend.init defaultConfig w_pw_converged) defaultConfig
        (Exec.init w_pw_converged)).2.2.world)).1.1 = true ∧
    (setup_sync (Backend.init defaultConfig w_pw_converged) defaultConfig
      (Exec.init (setup_sync (Backend.init defaultConfig w_pw_converged) defaultConfig
        (Exec.init w_pw_converged)).2.2.world)).2.2.trace =
      [Cmd.setSinkMute ("audio_master") false] := by
  refine ⟨by decide, by decide, by decide⟩

/-- C1 (amended): for two consecutive `setup_sync` calls on a well-formed
server with no external change between them, if the first call returns
success then the second call also returns success and issues zero
load-module / unload-module commands — it only re-asserts non-structural
state (set-sink-mute / set-sink-volume / set-default-sink /
move-sink-input re-assertions), in both backend modes. -/
theorem c1_second_call_no_structural_mutations (b : Backend) (cfg : Config) (w : World)
    (hwf : WFWorld w)
    (hok : (setup_sync b cfg (Exec.init w)).1.1 = true) :
    (setup_sync b cfg
      (Exec.init (setup_sync b cfg (Exec.init w)).2.2.world)).1.1 = true ∧
    (setup_sync b cfg
      (Exec.init (setup_sync b cfg (Exec.init w)).2.2.world)).2.2.trace.filter
      isLoadOrUnload = [] := by
  by_cases hpw : b.is_pipewire = true
  · have hsel : ∀ e : Exec,
        (setup_sync b cfg e).1 = (setup_combine_sink_locked b.virtual_sink e).1 ∧
        (setup_sync b cfg e).2.2 = (setup_combine_sink_locked b.virtual_sink e).2.2 := by
      intro e
      unfold setup_sync
      rw [if_pos hpw]
      exact ⟨rfl, rfl⟩
    rw [(hsel (Exec.init w)).1] at hok
    have hconv := setup_pw_success_converged b.virtual_sink w hwf hok
    rw [(hsel (Exec.init w)).2]
    set W1 := (setup_combine_sink_locked b.virtual_sink (Exec.init w)).2.2.world with hW1
    rw [(hsel (Exec.init W1)).1, (hsel (Exec.init W1)).2]
    have h2 := setup_pw_converged b.virtual_sink W1 hconv
    refine ⟨h2.1, ?_⟩
    rw [h2.2.1]
    rfl
  · have hsel : ∀ e : Exec,
        (setup_sync b cfg e).1 = (setup_loopback_locked b.virtual_sink cfg e).1 ∧
        (setup_sync b cfg e).2.2 = (setup_loopback_locked b.virtual_sink cfg e).2.2 := by
      intro e
      unfold setup_sync
      rw [if_neg hpw]
      exact ⟨rfl, rfl⟩
    rw [(hsel (Exec.init w)).2]
    set W1 := (setup_loopback_locked b.virtual_sink cfg (Exec.init w)).2.2.world with hW1
    rw [(hsel (Exec.init W1)).1, (hsel (Exec.init W1)).2]
    constructor
    · exact setup_pa_ok _ _ _
    · apply setup_pa_no_loads b.virtual_sink cfg W1
      rw [hW1]
      exact setup_pa_ready_after b.virtual_sink cfg w

/-- C1 witness: on a fresh PipeWire server with one analog card the first
call succeeds, and the theorem yields that the second call succeeds with
zero load/unload commands. -/
theorem c1_witness :
    (WFWorld w_pw_fresh ∧
      (setup_sync (Backend.init defaultConfig w_pw_fresh) defaultConfig
        (Exec.init w_pw_fresh)).1.1 = true) ∧
    ((setup_sync (Backend.init defaultConfig w_pw_fresh) defaultConfig
      (Exec.init (setup_sync (Backend.init defaultConfig w_pw_fresh) defaultConfig
        (Exec.init w_pw_fresh)).2.2.world)).1.1 = true ∧
     (setup_sync (Backend.init defaultConfig w_pw_fresh) defaultConfig
      (Exec.init (setup_sync (Backend.init defaultConfig w_pw_fresh) defaultConfig
        (Exec.init w_pw_fresh)).2.2.world)).2.2.trace.filter isLoadOrUnload = []) :=
  ⟨⟨by decide, by decide⟩,
    c1_second_call_no_structural_mutations (Backend.init defaultConfig w_pw_fresh)
      defaultConfig w_pw_fresh (by decide) (by decide)⟩

end AudioSync
